import Mathlib

/-!
# Chipmunk2D demo harness and debug drawing: a shallow embedding

The definitions below follow `src/demo/ChipmunkDemo.c` and
`src/demo/ChipmunkDebugDraw.c`.

Conventions of the embedding:

* `double`, `float` and `cpFloat` values are rationals (exact arithmetic; rounding, infinities and
  NaN are not represented);
* `int` counters are integers; the `unsigned int` to `int` conversion in `Keyboard` wraps at 32 bits;
* the file-scope variables of `ChipmunkDemo.c` are the fields of `DemoState`, and every function
  that reads or writes them is a function from states to states;
* calls that leave the two source files (demo callbacks, GLFW, GL, libc) are appended to the
  `calls` field of the state, in program order; a demo callback is assumed to change nothing but
  the space it is handed;
* the file-scope variables of `ChipmunkDebugDraw.c` that the frame set-up uses are the fields
  of `DrawState`;
* values obtained from the outside (`glfwGetTime()`, what GLFW and the renderer answer) are
  arguments.
-/

set_option linter.unusedVariables false

namespace Chipmunk2D

/-! ## Vectors -/

/-- The two-component vector `cpVect`. -/
structure cpVect where
  x : ℚ
  y : ℚ
deriving DecidableEq, Repr

/-- Modelled from the spec: `cpv` of `chipmunk/cpVect.h` (not among the sources) builds a vector
from its two components. -/
def cpv (x y : ℚ) : cpVect := ⟨x, y⟩

/-- Modelled from the spec: `cpvadd` of `chipmunk/cpVect.h` (not among the sources), the
component-wise sum. -/
def cpvadd (v1 v2 : cpVect) : cpVect := cpv (v1.x + v2.x) (v1.y + v2.y)

/-- Modelled from the spec: `cpvsub` of `chipmunk/cpVect.h` (not among the sources), the
component-wise difference. -/
def cpvsub (v1 v2 : cpVect) : cpVect := cpv (v1.x - v2.x) (v1.y - v2.y)

/-- Modelled from the spec: `cpvmult` of `chipmunk/cpVect.h` (not among the sources), the
product with a scalar. -/
def cpvmult (v : cpVect) (s : ℚ) : cpVect := cpv (v.x * s) (v.y * s)

/-- Modelled from the spec: `cpvlerp` of `chipmunk/cpVect.h` (not among the sources), the linear
interpolation `v1*(1 - t) + v2*t`. -/
def cpvlerp (v1 v2 : cpVect) (t : ℚ) : cpVect := cpvadd (cpvmult v1 (1 - t)) (cpvmult v2 t)

/-! ## The demo table and the global state of `ChipmunkDemo.c` -/

/-- One entry of the demo table (`ChipmunkDemo` of `ChipmunkDemo.h`, not among the sources): the
fields that `ChipmunkDemo.c` reads. `σ` is what a `cpSpace *` stands for. -/
structure ChipmunkDemo (σ : Type) where
  name : String
  timestep : ℚ
  initFunc : Unit → σ
  updateFunc : σ → ℚ → σ
  destroyFunc : σ → Unit

/-- A call that leaves the translation unit, as recorded in `DemoState.calls`. -/
inductive Call (σ : Type) where
  | srand (seed : Nat)
  | initFunc (demo : Int)
  | updateFunc (demo : Int) (space : σ) (dt : ℚ)
  | destroyFunc (demo : Int) (space : σ)
  | glfwSetWindowTitle (index : Int) (name : String)
  | glDisable (cap : String)
deriving DecidableEq, Repr

/-- What the pointer `ChipmunkDemoMessageString` points at. -/
inductive MessagePtr where
  | null
  | emptyLiteral
  | printStringBuffer
deriving DecidableEq, Repr

/-- The fields of the kinematic body `mouse_body` that `Tick` touches. -/
structure cpBody where
  p : cpVect
  v : cpVect
deriving DecidableEq, Repr

/-- The file-scope variables of `ChipmunkDemo.c` (and the two light variables of
`ChipmunkDebugDraw.c` that `RunDemo` assigns). `PrintStringCursor` is `none` for `NULL` and
`some off` for `PrintStringBuffer + off`; `mouse_joint` is `none` for `NULL`. -/
structure DemoState (σ : Type) where
  demo_count : Int
  demo_index : Int
  paused : Bool
  step : Bool
  space : σ
  Accumulator : ℚ
  LastTime : ℚ
  ChipmunkDemoTicks : Int
  ChipmunkDemoTime : ℚ
  ChipmunkDemoMouse : cpVect
  ChipmunkDemoRightClick : Bool
  ChipmunkDemoRightDown : Bool
  ChipmunkDemoKeyboard : cpVect
  mouse_body : cpBody
  mouse_joint : Option Nat
  ChipmunkDemoMessageString : MessagePtr
  translate : cpVect
  scale : ℚ
  max_arbiters : Int
  max_points : Int
  max_constraints : Int
  PrintStringBuffer : List Nat
  PrintStringCursor : Option Nat
  ChipmunkDebugDrawLightPosition : cpVect
  ChipmunkDebugDrawLightRadius : ℚ
  calls : List (Call σ)

/-! ## `ChipmunkDemoPrintString` -/

/-- The value of `sizeof(PrintStringBuffer)`, `1024*8`. -/
def PrintStringBufferSize : Nat := 1024 * 8

/-- The number of values of `size_t` (64-bit). -/
def SIZE_MOD : Nat := 2 ^ 64

/-- The largest `int`. -/
def INT_MAX : Int := 2 ^ 31 - 1

/-- The return value of the C library `vsnprintf`: the length the complete output has, whatever
the size of the destination; a negative value when formatting fails (`out = none`) or when
that length is not representable as an `int`. -/
def vsnprintfReturn (out : Option (List Nat)) : Int :=
  match out with
  | none => -1
  | some str => if (str.length : Int) ≤ INT_MAX then (str.length : Int) else -1

/-- The bytes the C library `vsnprintf` stores at its destination when it is given room for `n`
bytes: nothing for `n = 0`, otherwise the first `n - 1` bytes of the output at most, followed by
the terminating zero. A failed formatting stores nothing here. -/
def vsnprintfBytes (n : Nat) (out : Option (List Nat)) : List Nat :=
  match out with
  | none => []
  | some str => if n = 0 then [] else str.take (n - 1) ++ [0]

/-- Storing `bytes` in `buf` from offset `off` on. -/
def storeAt (buf : List Nat) (off : Nat) (bytes : List Nat) : List Nat :=
  buf.take off ++ bytes ++ buf.drop (off + bytes.length)

/-- The local `remaining` of `ChipmunkDemoPrintString`:
`sizeof(PrintStringBuffer) - (PrintStringCursor - PrintStringBuffer)` in `size_t`. -/
def remaining (off : Nat) : Nat :=
  (((PrintStringBufferSize : Int) - (off : Int)) % (SIZE_MOD : Int)).toNat

/-- The local `would_write` of `ChipmunkDemoPrintString`: the `int` that `vsnprintf` returns,
converted to `size_t`. -/
def would_write (out : Option (List Nat)) : Nat :=
  ((vsnprintfReturn out) % (SIZE_MOD : Int)).toNat

/-- `ChipmunkDemoPrintString(fmt, ...)`; `out` is what the format and its arguments expand to
(`none`: the expansion fails). -/
def ChipmunkDemoPrintString {σ : Type} (out : Option (List Nat)) (s : DemoState σ) : DemoState σ :=
  match s.PrintStringCursor with
  | none => s
  | some off =>
    let s := { s with
      ChipmunkDemoMessageString := MessagePtr.printStringBuffer
      PrintStringBuffer := storeAt s.PrintStringBuffer off (vsnprintfBytes (remaining off) out) }
    if would_write out > 0 ∧ would_write out < remaining off then
      { s with PrintStringCursor := some (off + would_write out) }
    else
      -- encoding error or overflow, prevent further use until reinitialized
      { s with PrintStringCursor := none }

/-! ## `Tick` and `Update` -/

/-- `Tick(dt)`. The assignments of the running branch go to different variables and are
written as one update of the state; `new_point` and the new velocity are computed from the old
`mouse_body->p`, as in the source. -/
def Tick {σ : Type} (demos : Int → ChipmunkDemo σ) (dt : ℚ) (s : DemoState σ) : DemoState σ :=
  if !s.paused || s.step then
    let new_point := cpvlerp s.mouse_body.p s.ChipmunkDemoMouse (1 / 4)
    { s with
      PrintStringBuffer := s.PrintStringBuffer.set 0 0
      PrintStringCursor := some 0
      mouse_body := { v := cpvmult (cpvsub new_point s.mouse_body.p) 60, p := new_point }
      calls := s.calls ++ [Call.updateFunc s.demo_index s.space dt]
      space := (demos s.demo_index).updateFunc s.space dt
      ChipmunkDemoTicks := s.ChipmunkDemoTicks + 1
      ChipmunkDemoTime := s.ChipmunkDemoTime + dt
      step := false
      ChipmunkDemoRightDown := false }
  else s

/-- The `for` loop of `Update`, entered after `Accumulator += dt`: while
`Accumulator > fixed_dt`, run `Tick(fixed_dt)` and then `Accumulator -= fixed_dt`. The loop need
not end (take `fixed_dt = 0`), so it runs on `fuel`: `none` means the fuel ran out before the
loop condition became false. -/
def UpdateLoop {σ : Type} (demos : Int → ChipmunkDemo σ) (fixed_dt : ℚ) :
    Nat → DemoState σ → Option (DemoState σ)
  | 0, s => if s.Accumulator > fixed_dt then none else some s
  | fuel + 1, s =>
    if s.Accumulator > fixed_dt then
      let s := Tick demos fixed_dt s
      UpdateLoop demos fixed_dt fuel { s with Accumulator := s.Accumulator - fixed_dt }
    else some s

/-- The local `dt` of `Update` after the clamp: `time - LastTime`, replaced by `0.2` when it is
larger. -/
def UpdateDt (time lastTime : ℚ) : ℚ :=
  let dt := time - lastTime
  if dt > 1 / 5 then 1 / 5 else dt

/-- `Update()`; `time` is what `glfwGetTime()` returns. -/
def Update {σ : Type} (demos : Int → ChipmunkDemo σ) (fuel : Nat) (time : ℚ) (s : DemoState σ) :
    Option (DemoState σ) :=
  let dt := UpdateDt time s.LastTime
  let fixed_dt := (demos s.demo_index).timestep
  match UpdateLoop demos fixed_dt fuel { s with Accumulator := s.Accumulator + dt } with
  | none => none
  | some s => some { s with LastTime := time }

/-! ## `RunDemo` and `Keyboard` -/

/-- `RunDemo(window, index)`; `now` is what `glfwGetTime()` returns. The assignments go to
different variables and are written as one update of the state; the three calls that leave the
file are recorded in program order. `demos[demo_index]` is read after `demo_index = index`, so
it is `demos index`. The title that `DemoTitle` formats is recorded by its two arguments,
`index` and `demos[demo_index].name`. -/
def RunDemo {σ : Type} (demos : Int → ChipmunkDemo σ) (now : ℚ) (index : Int) (s : DemoState σ) :
    DemoState σ :=
  { s with
    demo_index := index
    ChipmunkDemoTicks := 0
    ChipmunkDemoTime := 0
    Accumulator := 0
    LastTime := now
    ChipmunkDebugDrawLightPosition := cpv (-1000) 1000
    ChipmunkDebugDrawLightRadius := 50
    mouse_joint := none
    ChipmunkDemoMessageString := MessagePtr.emptyLiteral
    max_arbiters := 0
    max_points := 0
    max_constraints := 0
    space := (demos index).initFunc ()
    calls := s.calls ++ [Call.srand 45073, Call.initFunc index,
      Call.glfwSetWindowTitle index (demos index).name] }

/-- The `int` that `key - 'a'` is stored as: the subtraction is done in `unsigned int`
(32 bits), and the result is converted to `int`. -/
def keyIndex (key : Nat) : Int :=
  let u : Nat := (key % 2 ^ 32 + 2 ^ 32 - ('a').toNat) % 2 ^ 32
  if u < 2 ^ 31 then (u : Int) else (u : Int) - 2 ^ 32

/-- The first `if` chain of `Keyboard`; the local `index` is `keyIndex key`. -/
def KeyboardDemo {σ : Type} (demos : Int → ChipmunkDemo σ) (now : ℚ) (key : Nat) (s : DemoState σ) :
    DemoState σ :=
  if 0 ≤ keyIndex key ∧ keyIndex key < s.demo_count then
    RunDemo demos now (keyIndex key)
      { s with calls := s.calls ++ [Call.destroyFunc s.demo_index s.space] }
  else if key = (' ').toNat then
    RunDemo demos now s.demo_index
      { s with calls := s.calls ++ [Call.destroyFunc s.demo_index s.space] }
  else if key = ('`').toNat then
    { s with paused := !s.paused }
  else if key = ('1').toNat then
    { s with step := true }
  else if key = ('\\').toNat then
    { s with calls := s.calls ++ [Call.glDisable "GL_LINE_SMOOTH", Call.glDisable "GL_POINT_SMOOTH"] }
  else s

/-- The second `if` chain of `Keyboard`, on the view `translate` and `scale`. -/
def KeyboardView {σ : Type} (key : Nat) (s : DemoState σ) : DemoState σ :=
  let translate_increment : ℚ := 50 / s.scale
  let scale_increment : ℚ := 6 / 5
  if key = ('5').toNat then
    { s with translate := cpv 0 0, scale := 1 }
  else if key = ('4').toNat then
    { s with translate := { s.translate with x := s.translate.x + translate_increment } }
  else if key = ('6').toNat then
    { s with translate := { s.translate with x := s.translate.x - translate_increment } }
  else if key = ('2').toNat then
    { s with translate := { s.translate with y := s.translate.y + translate_increment } }
  else if key = ('8').toNat then
    { s with translate := { s.translate with y := s.translate.y - translate_increment } }
  else if key = ('7').toNat then
    { s with scale := s.scale / scale_increment }
  else if key = ('9').toNat then
    { s with scale := s.scale * scale_increment }
  else s

/-- `Keyboard(window, key)`; `now` is what `glfwGetTime()` returns should `RunDemo` be called. -/
def Keyboard {σ : Type} (demos : Int → ChipmunkDemo σ) (now : ℚ) (key : Nat) (s : DemoState σ) :
    DemoState σ :=
  KeyboardView key (KeyboardDemo demos now key s)

/-! ## Program start and the states the harness reaches -/

/-- The condition of the `if` in `Tick`, `!paused || step`: the demo is running. -/
def running {σ : Type} (s : DemoState σ) : Bool := !s.paused || s.step

/-- The state when `main` reaches `RunDemo`: every file-scope variable has its static
initial value, `demo_count` is what `main` stored, `mouse_body` is the fresh kinematic body,
and `space` is still the null pointer `nullSpace`. -/
def initialState {σ : Type} (demo_count : Int) (nullSpace : σ) : DemoState σ :=
  { demo_count := demo_count
    demo_index := ('a').toNat - ('a').toNat
    paused := false
    step := false
    space := nullSpace
    Accumulator := 0
    LastTime := 0
    ChipmunkDemoTicks := 0
    ChipmunkDemoTime := 0
    ChipmunkDemoMouse := cpv 0 0
    ChipmunkDemoRightClick := false
    ChipmunkDemoRightDown := false
    ChipmunkDemoKeyboard := cpv 0 0
    mouse_body := ⟨cpv 0 0, cpv 0 0⟩
    mouse_joint := none
    ChipmunkDemoMessageString := MessagePtr.null
    translate := cpv 0 0
    scale := 1
    max_arbiters := 0
    max_points := 0
    max_constraints := 0
    PrintStringBuffer := List.replicate PrintStringBufferSize 0
    PrintStringCursor := none
    ChipmunkDebugDrawLightPosition := cpv 0 0
    ChipmunkDebugDrawLightRadius := 0
    calls := [] }

/-- The states the harness gets to from `s0` by the functions modelled here that write the
file-scope variables: `RunDemo`, `Update` (when its loop ends), `Keyboard`, and
`ChipmunkDemoPrintString`, which demos call at any time. -/
inductive Reachable {σ : Type} (demos : Int → ChipmunkDemo σ) (s0 : DemoState σ) :
    DemoState σ → Prop where
  | start : Reachable demos s0 s0
  | runDemo (s : DemoState σ) (now : ℚ) (index : Int) :
      Reachable demos s0 s → Reachable demos s0 (RunDemo demos now index s)
  | update (s s' : DemoState σ) (fuel : Nat) (time : ℚ) :
      Reachable demos s0 s → Update demos fuel time s = some s' → Reachable demos s0 s'
  | keyboard (s : DemoState σ) (now : ℚ) (key : Nat) :
      Reachable demos s0 s → Reachable demos s0 (Keyboard demos now key s)
  | printString (s : DemoState σ) (out : Option (List Nat)) :
      Reachable demos s0 s → Reachable demos s0 (ChipmunkDemoPrintString out s)

/-- The invariant of the print buffer: `PrintStringBuffer` has its `1024*8` bytes, and
`PrintStringCursor`, when it is not `NULL`, points inside it. -/
def PrintInv {σ : Type} (s : DemoState σ) : Prop :=
  s.PrintStringBuffer.length = PrintStringBufferSize ∧
  ∀ off, s.PrintStringCursor = some off → off < PrintStringBufferSize

/-- A demo table to evaluate the harness on: every entry has the timestep `1/60`, spaces are
numbers, `initFunc` returns the space `0` and `updateFunc` adds one to the space. -/
def exampleDemos : Int → ChipmunkDemo Nat := fun _ =>
  { name := "Example"
    timestep := 1 / 60
    initFunc := fun _ => 0
    updateFunc := fun space _ => space + 1
    destroyFunc := fun _ => () }

/-- The state after `main` has run `RunDemo(window, demo_index)` at time `0` on a table of two
demos. -/
def exampleStart : DemoState Nat := RunDemo exampleDemos 0 0 (initialState 2 0)

/-- The state `Update` leaves when it is called at time `1/20` in `exampleStart`: two ticks. -/
def exampleAfter : DemoState Nat :=
  { (Tick exampleDemos (1 / 60))^[2] exampleStart with Accumulator := 1 / 60, LastTime := 1 / 20 }

/-- The state `Update` leaves when it is called at time `1` in `exampleStart`: the delta `1` is
cut to `1/5`, which is eleven ticks. -/
def exampleAfterLate : DemoState Nat :=
  { (Tick exampleDemos (1 / 60))^[11] exampleStart with Accumulator := 1 / 60, LastTime := 1 }

/-- The state `exampleStart` after the keys for pause and for a single step. -/
def examplePaused : DemoState Nat := { exampleStart with paused := true, step := true }

/-- The state `Update` leaves when it is called at time `1/20` in `examplePaused`: the loop runs
twice. -/
def examplePausedAfter : DemoState Nat :=
  { (Tick exampleDemos (1 / 60))^[2] examplePaused with Accumulator := 1 / 60, LastTime := 1 / 20 }

/-! ## The renderer interface used by `ChipmunkDebugDraw.c` -/

/-- The `float` pair `pvec2` of `Photon.h`. -/
structure pvec2 where
  x : ℚ
  y : ℚ
deriving DecidableEq, Repr

/-- The `float` quadruple `pvec4` of `Photon.h`. -/
structure pvec4 where
  x : ℚ
  y : ℚ
  z : ℚ
  w : ℚ
deriving DecidableEq, Repr

/-- Modelled from the spec: the constant `PVEC2_0` of `Photon.h` (not among the sources), the
zero pair. -/
def PVEC2_0 : pvec2 := ⟨0, 0⟩

/-- Modelled from the spec: the constant `PVEC4_CLEAR` of `Photon.h` (not among the sources),
the transparent colour. -/
def PVEC4_CLEAR : pvec4 := ⟨0, 0, 0, 0⟩

/-- One vertex as the renderer stores it: position, two attribute pairs, colour. -/
structure PhotonVertex where
  position : pvec4
  uv1 : pvec2
  uv2 : pvec2
  color : pvec4
deriving DecidableEq, Repr

/-- The render states that `ChipmunkDebugDraw.c` keeps in file-scope variables. -/
inductive RenderState where
  | PrimitiveState
  | FontState
  | ShadowMaskState
  | ShadowApplyState
deriving DecidableEq, Repr

/-- The `PhotonRenderBuffers` value an emitter works with: `vertexes` and `indexes` are the two
output pointers, counted in elements from where the renderer placed them, and `batchOffset` is
the number the renderer wants added to every index. -/
structure PhotonRenderBuffers where
  vertexes : Nat
  indexes : Nat
  batchOffset : Nat
deriving DecidableEq, Repr

/-- What one emitter does to the renderer: the triangle and vertex counts and the render state it
passed to `PhotonRendererEnqueueTriangles`, and every store it made through the two output
pointers, in program order, each with the element offset it went to. -/
structure Batch where
  triangles : Int
  vertexCount : Int
  state : RenderState
  vertexWrites : List (Nat × PhotonVertex)
  indexWrites : List (Nat × Nat)
deriving DecidableEq, Repr

/-- Modelled from the spec: `PhotonRendererEnqueueTriangles` of `Photon.h` (not among the
sources) reserves room for `triangles` triangles and `vertexes` vertices drawn with `state` and
returns the output pointers; `base` is the batch offset the renderer chooses. -/
def PhotonRendererEnqueueTriangles (base : Nat) (triangles vertexes : Int) (state : RenderState) :
    Batch × PhotonRenderBuffers :=
  (⟨triangles, vertexes, state, [], []⟩, ⟨0, 0, base⟩)

/-- Modelled from the spec: `PhotonVertexPush` of `Photon.h` (not among the sources) stores one
vertex at `v` and returns `v + 1`. -/
def PhotonVertexPush (m : Batch) (v : Nat) (position : pvec4) (uv1 uv2 : pvec2) (color : pvec4) :
    Batch × Nat :=
  ({ m with vertexWrites := m.vertexWrites ++ [(v, ⟨position, uv1, uv2, color⟩)] }, v + 1)

/-- Modelled from the spec: `PhotonIndexesCopy` of `Photon.h` (not among the sources) stores
`src[srcOffset + i] + offset` at `dst + i` for `i < count` and returns `dst + count`. Indices are
natural numbers here: the width of `PhotonIndex` is not in the sources. -/
def PhotonIndexesCopy (m : Batch) (dst : Nat) (src : List Nat) (srcOffset count offset : Nat) :
    Batch × Nat :=
  ({ m with indexWrites := m.indexWrites ++
      (List.range count).map (fun i => (dst + i, src.getD (srcOffset + i) 0 + offset)) },
    dst + count)

/-- Modelled from the spec: `PhotonRenderBuffersCopyIndexes` of `Photon.h` (not among the
sources) is `PhotonIndexesCopy` through `buffers->indexes` with `buffers->batchOffset` added. -/
def PhotonRenderBuffersCopyIndexes (m : Batch) (buffers : PhotonRenderBuffers) (src : List Nat)
    (srcOffset count : Nat) : Batch × PhotonRenderBuffers :=
  let r := PhotonIndexesCopy m buffers.indexes src srcOffset count buffers.batchOffset
  (r.1, { buffers with indexes := r.2 })

/-! ## The emitters of `ChipmunkDebugDraw.c` -/

/-- The colour type `cpSpaceDebugColor`. -/
structure cpSpaceDebugColor where
  r : ℚ
  g : ℚ
  b : ℚ
  a : ℚ
deriving DecidableEq, Repr

/-- `MakeColor(c)`. -/
def MakeColor (c : cpSpaceDebugColor) : pvec4 := ⟨c.r, c.g, c.b, c.a⟩

/-- Modelled from the spec: `cpfmax` of `chipmunk/chipmunk_types.h` (not among the sources), the
larger of two numbers. -/
def cpfmax (a b : ℚ) : ℚ := if a > b then a else b

/-- `DrawCircle(p, r1, r2, color)`; `base` is the batch offset the renderer hands out. -/
def DrawCircle (base : Nat) (p : pvec2) (r1 r2 : ℚ) (color : pvec4) : Batch :=
  let attribs : pvec2 := ⟨r1, cpfmax r2 1⟩
  let (m, buffers) := PhotonRendererEnqueueTriangles base 2 4 RenderState.PrimitiveState
  let m := (PhotonVertexPush m (buffers.vertexes + 0) ⟨p.x - r2, p.y - r2, 0, 1⟩ ⟨-r2, -r2⟩ attribs color).1
  let m := (PhotonVertexPush m (buffers.vertexes + 1) ⟨p.x - r2, p.y + r2, 0, 1⟩ ⟨-r2, r2⟩ attribs color).1
  let m := (PhotonVertexPush m (buffers.vertexes + 2) ⟨p.x + r2, p.y + r2, 0, 1⟩ ⟨r2, r2⟩ attribs color).1
  let m := (PhotonVertexPush m (buffers.vertexes + 3) ⟨p.x + r2, p.y - r2, 0, 1⟩ ⟨r2, -r2⟩ attribs color).1
  (PhotonRenderBuffersCopyIndexes m buffers [0, 1, 2, 2, 3, 0] 0 6).1

/-- `DrawSegment(a, b, r1, r2, color)`; `cpvnormalize` (of `chipmunk/cpVect.h`, not among the
sources; it takes a square root) is an argument, `base` is the batch offset the renderer hands
out. -/
def DrawSegment (cpvnormalize : cpVect → cpVect) (base : Nat) (a b : cpVect) (r1 r2 : ℚ)
    (color : pvec4) : Batch :=
  let t := cpvmult (cpvnormalize (cpvsub b a)) r2
  let attribs : pvec2 := ⟨r1, cpfmax r2 1⟩
  let (m, buffers) := PhotonRendererEnqueueTriangles base 6 8 RenderState.PrimitiveState
  let m := (PhotonVertexPush m (buffers.vertexes + 0) ⟨b.x - t.y + t.x, b.y + t.x + t.y, 0, 1⟩ ⟨r2, -r2⟩ attribs color).1
  let m := (PhotonVertexPush m (buffers.vertexes + 1) ⟨b.x + t.y + t.x, b.y - t.x + t.y, 0, 1⟩ ⟨r2, r2⟩ attribs color).1
  let m := (PhotonVertexPush m (buffers.vertexes + 2) ⟨b.x - t.y, b.y + t.x, 0, 1⟩ ⟨0, -r2⟩ attribs color).1
  let m := (PhotonVertexPush m (buffers.vertexes + 3) ⟨b.x + t.y, b.y - t.x, 0, 1⟩ ⟨0, r2⟩ attribs color).1
  let m := (PhotonVertexPush m (buffers.vertexes + 4) ⟨a.x - t.y, a.y + t.x, 0, 1⟩ ⟨0, -r2⟩ attribs color).1
  let m := (PhotonVertexPush m (buffers.vertexes + 5) ⟨a.x + t.y, a.y - t.x, 0, 1⟩ ⟨0, r2⟩ attribs color).1
  let m := (PhotonVertexPush m (buffers.vertexes + 6) ⟨a.x - t.y - t.x, a.y + t.x - t.y, 0, 1⟩ ⟨-r2, -r2⟩ attribs color).1
  let m := (PhotonVertexPush m (buffers.vertexes + 7) ⟨a.x + t.y - t.x, a.y - t.x - t.y, 0, 1⟩ ⟨-r2, r2⟩ attribs color).1
  (PhotonRenderBuffersCopyIndexes m buffers
    [0, 1, 2, 3, 1, 2, 3, 4, 2, 3, 4, 5, 6, 4, 5, 6, 7, 5] 0 18).1

/-- The first loop of `ChipmunkDebugDrawPolygon`, `for(int i = 0; i < count; i++)`: one
`PhotonVertexPush` through `buffers.vertexes` for each vertex. Reading `verts[i]` past the end
of the array yields the zero vector here. -/
def PolygonVertexLoop (count : Int) (verts : List cpVect) (attribs : pvec2) (color : pvec4)
    (st : Batch × PhotonRenderBuffers) : Batch × PhotonRenderBuffers :=
  (List.range count.toNat).foldl
    (fun st i =>
      let v := verts.getD i (cpv 0 0)
      let r := PhotonVertexPush st.1 st.2.vertexes ⟨v.x, v.y, 0, 1⟩ PVEC2_0 attribs color
      (r.1, { st.2 with vertexes := r.2 }))
    st

/-- The second loop of `ChipmunkDebugDrawPolygon`, `for(int i = 0; i < count - 2; i++)`: one
`PhotonIndexesCopy` of `{0, i + 1, i + 2}` through `buffers.indexes` for each triangle. -/
def PolygonIndexLoop (count : Int) (st : Batch × PhotonRenderBuffers) :
    Batch × PhotonRenderBuffers :=
  (List.range (count - 2).toNat).foldl
    (fun st i =>
      let r := PhotonIndexesCopy st.1 st.2.indexes [0, i + 1, i + 2] 0 3 st.2.batchOffset
      (r.1, { st.2 with indexes := r.2 }))
    st

/-- `ChipmunkDebugDrawPolygon(count, verts, radius, fill)`; `base` is the batch offset the
renderer hands out. -/
def ChipmunkDebugDrawPolygon (base : Nat) (count : Int) (verts : List cpVect) (radius : ℚ)
    (fill : cpSpaceDebugColor) : Batch :=
  let attribs : pvec2 := ⟨1, 1⟩
  let color := MakeColor fill
  let st := PhotonRendererEnqueueTriangles base (count - 2) count RenderState.PrimitiveState
  let st := PolygonVertexLoop count verts attribs color st
  let st := PolygonIndexLoop count st
  st.1

/-- The bounding box type `cpBB`. -/
structure cpBB where
  l : ℚ
  b : ℚ
  r : ℚ
  t : ℚ
deriving DecidableEq, Repr

/-- `ChipmunkDebugDrawBB(bb, color)`. -/
def ChipmunkDebugDrawBB (base : Nat) (bb : cpBB) (color : cpSpaceDebugColor) : Batch :=
  let verts := [cpv bb.r bb.b, cpv bb.r bb.t, cpv bb.l bb.t, cpv bb.l bb.b]
  ChipmunkDebugDrawPolygon base 4 verts 0 color

/-- The glyph data that `PushChar` reads and `ChipmunkDebugDraw.c` does not define: the table
`glyph_indexes` filled by `ChipmunkDebugDrawInit`, and `sdf_spacing`, `sdf_tex_width`,
`sdf_tex_height`, `scale_factor` of `VeraMoBd.ttf_sdf.h` (not among the sources). -/
structure GlyphData where
  glyph_indexes : Int → Int
  sdf_spacing : Int → ℚ
  sdf_tex_width : ℚ
  sdf_tex_height : ℚ
  scale_factor : ℚ

/-- The constant `TextScale`, `0.70f`. -/
def TextScale : ℚ := 7 / 10

/-- `PushChar(character, x, y, color)`: the quad it emits and the advance it returns. -/
def PushChar (g : GlyphData) (base : Nat) (character : Int) (x y : ℚ) (color : pvec4) :
    Batch × ℚ :=
  let i := g.glyph_indexes character
  let w := g.sdf_tex_width
  let h := g.sdf_tex_height
  let gw := g.sdf_spacing (i * 8 + 3)
  let gh := g.sdf_spacing (i * 8 + 4)
  let txmin := g.sdf_spacing (i * 8 + 1) / w
  let tymin := g.sdf_spacing (i * 8 + 2) / h
  let txmax := txmin + gw / w
  let tymax := tymin + gh / h
  let s := TextScale / g.scale_factor
  let xmin := x + g.sdf_spacing (i * 8 + 5) / g.scale_factor * TextScale
  let ymin := y + (g.sdf_spacing (i * 8 + 6) / g.scale_factor - gh) * TextScale
  let xmax := xmin + gw * TextScale
  let ymax := ymin + gh * TextScale
  let (m, buffers) := PhotonRendererEnqueueTriangles base 2 4 RenderState.FontState
  let m := (PhotonVertexPush m (buffers.vertexes + 0) ⟨xmin, ymin, 0, 1⟩ ⟨txmin, tymax⟩ PVEC2_0 color).1
  let m := (PhotonVertexPush m (buffers.vertexes + 1) ⟨xmin, ymax, 0, 1⟩ ⟨txmin, tymin⟩ PVEC2_0 color).1
  let m := (PhotonVertexPush m (buffers.vertexes + 2) ⟨xmax, ymax, 0, 1⟩ ⟨txmax, tymin⟩ PVEC2_0 color).1
  let m := (PhotonVertexPush m (buffers.vertexes + 3) ⟨xmax, ymin, 0, 1⟩ ⟨txmax, tymax⟩ PVEC2_0 color).1
  let m := (PhotonRenderBuffersCopyIndexes m buffers [0, 1, 2, 0, 2, 3] 0 6).1
  (m, g.sdf_spacing (i * 8 + 7) * s)

/-- `ChipmunkDebugDrawApplyShadows()`; `base` is the batch offset the renderer hands out. -/
def ChipmunkDebugDrawApplyShadows (base : Nat) : Batch :=
  let c : pvec4 := ⟨117 / 256, 79 / 256, 68 / 256, 1⟩
  let (m, buffers) := PhotonRendererEnqueueTriangles base 2 4 RenderState.ShadowApplyState
  let m := (PhotonVertexPush m (buffers.vertexes + 0) ⟨-1, -1, 0, 1⟩ PVEC2_0 PVEC2_0 c).1
  let m := (PhotonVertexPush m (buffers.vertexes + 1) ⟨1, -1, 0, 1⟩ PVEC2_0 PVEC2_0 c).1
  let m := (PhotonVertexPush m (buffers.vertexes + 2) ⟨1, 1, 0, 1⟩ PVEC2_0 PVEC2_0 c).1
  let m := (PhotonVertexPush m (buffers.vertexes + 3) ⟨-1, 1, 0, 1⟩ PVEC2_0 PVEC2_0 c).1
  (PhotonRenderBuffersCopyIndexes m buffers [0, 1, 2, 2, 3, 0] 0 6).1

/-! ## Shadows -/

/-- The affine transform `cpTransform`. -/
structure cpTransform where
  a : ℚ
  b : ℚ
  c : ℚ
  d : ℚ
  tx : ℚ
  ty : ℚ
deriving DecidableEq, Repr

/-- Modelled from the spec: `cpTransformPoint` of `chipmunk/cpTransform.h` (not among the
sources) maps `(x, y)` to `(t.a*x + t.c*y + t.tx, t.b*x + t.d*y + t.ty)`. -/
def cpTransformPoint (t : cpTransform) (p : cpVect) : cpVect :=
  cpv (t.a * p.x + t.c * p.y + t.tx) (t.b * p.x + t.d * p.y + t.ty)

/-- Modelled from the spec: `cpTransformMult` of `chipmunk/cpTransform.h` (not among the
sources), the composition that applies `t2` first and `t1` second. -/
def cpTransformMult (t1 t2 : cpTransform) : cpTransform :=
  { a := t1.a * t2.a + t1.c * t2.b
    b := t1.b * t2.a + t1.d * t2.b
    c := t1.a * t2.c + t1.c * t2.d
    d := t1.b * t2.c + t1.d * t2.d
    tx := t1.a * t2.tx + t1.c * t2.ty + t1.tx
    ty := t1.b * t2.tx + t1.d * t2.ty + t1.ty }

/-- The state the loop of `ChipmunkDebugDrawShadow` carries: the stores made so far, the output
pointers with the running `batchOffset`, and the local `a`. -/
structure ShadowLoopState where
  m : Batch
  buffers : PhotonRenderBuffers
  a : cpVect
deriving DecidableEq, Repr

/-- One pass through the body of the loop of `ChipmunkDebugDrawShadow`, for the index `i`. -/
def ShadowLoopBody (t : cpTransform) (verts : List cpVect) (st : ShadowLoopState) (i : Nat) :
    ShadowLoopState :=
  let penetration : ℚ := 2
  let opacity : ℚ := 1
  let m := st.m
  let buffers := st.buffers
  let a := st.a
  let b := cpTransformPoint t (verts.getD i (cpv 0 0))
  let r := PhotonVertexPush m buffers.vertexes ⟨0, 0, penetration, opacity⟩ ⟨a.x, a.y⟩ ⟨b.x, b.y⟩ PVEC4_CLEAR
  let m := r.1
  let buffers := { buffers with vertexes := r.2 }
  let r := PhotonVertexPush m buffers.vertexes ⟨0, 1, penetration, opacity⟩ ⟨a.x, a.y⟩ ⟨b.x, b.y⟩ PVEC4_CLEAR
  let m := r.1
  let buffers := { buffers with vertexes := r.2 }
  let r := PhotonVertexPush m buffers.vertexes ⟨1, 1, penetration, opacity⟩ ⟨a.x, a.y⟩ ⟨b.x, b.y⟩ PVEC4_CLEAR
  let m := r.1
  let buffers := { buffers with vertexes := r.2 }
  let r := PhotonVertexPush m buffers.vertexes ⟨1, 0, penetration, opacity⟩ ⟨a.x, a.y⟩ ⟨b.x, b.y⟩ PVEC4_CLEAR
  let m := r.1
  let buffers := { buffers with vertexes := r.2 }
  let r := PhotonIndexesCopy m buffers.indexes [0, 1, 2, 2, 3, 0] 0 6 buffers.batchOffset
  let m := r.1
  let buffers := { buffers with indexes := r.2 }
  let a := b
  let buffers := { buffers with batchOffset := buffers.batchOffset + 4 }
  ⟨m, buffers, a⟩

/-- `ChipmunkDebugDrawShadow(transform, count, verts)`; `LightMatrixInv` is the file-scope
variable of that name, `base` is the batch offset the renderer hands out. Reading `verts` outside
the array yields the zero vector here. -/
def ChipmunkDebugDrawShadow (LightMatrixInv : cpTransform) (base : Nat) (transform : cpTransform)
    (count : Int) (verts : List cpVect) : Batch :=
  let (m, buffers) := PhotonRendererEnqueueTriangles base (2 * count) (4 * count) RenderState.ShadowMaskState
  let t := cpTransformMult LightMatrixInv transform
  let a := cpTransformPoint t (verts.getD (count - 1).toNat (cpv 0 0))
  ((List.range count.toNat).foldl (ShadowLoopBody t verts) ⟨m, buffers, a⟩).m

/-- The identity transform, `cpTransformIdentity`. -/
def cpTransformIdentity : cpTransform := ⟨1, 0, 0, 1, 0, 0⟩

/-- A triangle to evaluate the emitters on. -/
def exampleTriangle : List cpVect := [cpv 0 0, cpv 4 0, cpv 0 3]

/-! ## The fragment stage of the shadow mask (`ShadowMaskFShader`) -/

/-- The GLSL built-in `clamp(x, minVal, maxVal)`, which is `min(max(x, minVal), maxVal)`. -/
def glsl_clamp (x minVal maxVal : ℚ) : ℚ := min (max x minVal) maxVal

/-- The GLSL built-in `mix(x, y, a)`, which is `x*(1 - a) + y*a`. -/
def glsl_mix (x y a : ℚ) : ℚ := x * (1 - a) + y * a

/-- The GLSL built-in `step(edge, x)`: `0` when `x < edge`, `1` otherwise. -/
def glsl_step (edge x : ℚ) : ℚ := if x < edge then 0 else 1

/-- The local `p` of `ShadowMaskFShader`: `clamp(v_Penumbras.xz/v_Penumbras.yw, -1, 1)`, as the
pair of its components. -/
def penumbraP (v_Penumbras : pvec4) : ℚ × ℚ :=
  (glsl_clamp (v_Penumbras.x / v_Penumbras.y) (-1) 1,
   glsl_clamp (v_Penumbras.z / v_Penumbras.w) (-1) 1)

/-- The local `value` of `ShadowMaskFShader`:
`mix(p*(3 - p*p)*0.25 + 0.5, vec2(1), step(v_Penumbras.yw, vec2(0)))`, as the pair of its
components. -/
def penumbraValue (v_Penumbras : pvec4) : ℚ × ℚ :=
  let p := penumbraP v_Penumbras
  (glsl_mix (p.1 * (3 - p.1 * p.1) * (1 / 4) + 1 / 2) 1 (glsl_step v_Penumbras.y 0),
   glsl_mix (p.2 * (3 - p.2 * p.2) * (1 / 4) + 1 / 2) 1 (glsl_step v_Penumbras.w 0))

/-- The local `occlusion` of `ShadowMaskFShader`: `value[0] + value[1] - 1`. -/
def occlusion (v_Penumbras : pvec4) : ℚ :=
  let value := penumbraValue v_Penumbras
  value.1 + value.2 - 1

/-- The constant `overshadow`, `1.0 + 1.0/64.0`. -/
def overshadow : ℚ := 1 + 1 / 64

/-- The end of `main` of `ShadowMaskFShader`: `none` for `discard`, otherwise the four equal
components of `PhotonFragOut`. The local `attenuation` is an argument: it comes from `length`, a
square root. -/
def ShadowMaskFShader (v_Opacity : ℚ) (v_Penumbras : pvec4) (v_Edges_z : ℚ) (attenuation : ℚ) :
    Option pvec4 :=
  if v_Edges_z ≥ 0 then none
  else
    let c := overshadow * v_Opacity * attenuation * occlusion v_Penumbras
    some ⟨c, c, c, c⟩

/-! ## Blend modes -/

/-- Modelled from the spec: the blend factors of `Photon.h` (not among the sources) that
`ChipmunkDebugDraw.c` names, with the two source-alpha factors of the pre-multiplied mode. -/
inductive PhotonBlendFactor where
  | PhotonBlendFactorZero
  | PhotonBlendFactorOne
  | PhotonBlendFactorSrcAlpha
  | PhotonBlendFactorOneMinusSrcAlpha
  | PhotonBlendFactorDstAlpha
  | PhotonBlendFactorOneMinusDstAlpha
deriving DecidableEq, Repr

/-- Modelled from the spec: the blend operations of `Photon.h` (not among the sources). -/
inductive PhotonBlendOp where
  | PhotonBlendOpAdd
  | PhotonBlendOpSubtract
  | PhotonBlendOpReverseSubtract
deriving DecidableEq, Repr

/-- The six fields of a `PhotonBlendMode` that the designated initialisers of
`ChipmunkDebugDraw.c` set. -/
structure PhotonBlendMode where
  colorOp : PhotonBlendOp
  colorSrcFactor : PhotonBlendFactor
  colorDstFactor : PhotonBlendFactor
  alphaOp : PhotonBlendOp
  alphaSrcFactor : PhotonBlendFactor
  alphaDstFactor : PhotonBlendFactor
deriving DecidableEq, Repr

/-- The constant `ShadowMaskBlend` of `ShadowsBegin`. -/
def ShadowMaskBlend : PhotonBlendMode :=
  { colorOp := PhotonBlendOp.PhotonBlendOpAdd
    colorSrcFactor := PhotonBlendFactor.PhotonBlendFactorZero
    colorDstFactor := PhotonBlendFactor.PhotonBlendFactorOne
    alphaOp := PhotonBlendOp.PhotonBlendOpAdd
    alphaSrcFactor := PhotonBlendFactor.PhotonBlendFactorOne
    alphaDstFactor := PhotonBlendFactor.PhotonBlendFactorOne }

/-- The constant `ShadowApplyBlend` of `ChipmunkDebugDrawInit`. -/
def ShadowApplyBlend : PhotonBlendMode :=
  { colorOp := PhotonBlendOp.PhotonBlendOpAdd
    colorSrcFactor := PhotonBlendFactor.PhotonBlendFactorDstAlpha
    colorDstFactor := PhotonBlendFactor.PhotonBlendFactorOneMinusDstAlpha
    alphaOp := PhotonBlendOp.PhotonBlendOpAdd
    alphaSrcFactor := PhotonBlendFactor.PhotonBlendFactorZero
    alphaDstFactor := PhotonBlendFactor.PhotonBlendFactorZero }

/-- The number a blend factor stands for, given the source and the destination value (the
blend equation of the graphics API, which is outside the sources). -/
def blendFactorValue (f : PhotonBlendFactor) (src dst : pvec4) : ℚ :=
  match f with
  | PhotonBlendFactor.PhotonBlendFactorZero => 0
  | PhotonBlendFactor.PhotonBlendFactorOne => 1
  | PhotonBlendFactor.PhotonBlendFactorSrcAlpha => src.w
  | PhotonBlendFactor.PhotonBlendFactorOneMinusSrcAlpha => 1 - src.w
  | PhotonBlendFactor.PhotonBlendFactorDstAlpha => dst.w
  | PhotonBlendFactor.PhotonBlendFactorOneMinusDstAlpha => 1 - dst.w

/-- One channel of the blend equation: the weighted source and the weighted destination,
combined by the operation. -/
def blendChannel (op : PhotonBlendOp) (s sf d df : ℚ) : ℚ :=
  match op with
  | PhotonBlendOp.PhotonBlendOpAdd => s * sf + d * df
  | PhotonBlendOp.PhotonBlendOpSubtract => s * sf - d * df
  | PhotonBlendOp.PhotonBlendOpReverseSubtract => d * df - s * sf

/-- The value a blend mode leaves in the destination, for the source value `src` (the output
of the fragment stage) and the old destination value `dst`: the three colour channels use the
colour operation and factors, the alpha channel the alpha operation and factors. The result is
the one of the blend equation, before the frame buffer clamps or rounds it. -/
def blend (mode : PhotonBlendMode) (src dst : pvec4) : pvec4 :=
  let csf := blendFactorValue mode.colorSrcFactor src dst
  let cdf := blendFactorValue mode.colorDstFactor src dst
  let asf := blendFactorValue mode.alphaSrcFactor src dst
  let adf := blendFactorValue mode.alphaDstFactor src dst
  { x := blendChannel mode.colorOp src.x csf dst.x cdf
    y := blendChannel mode.colorOp src.y csf dst.y cdf
    z := blendChannel mode.colorOp src.z csf dst.z cdf
    w := blendChannel mode.alphaOp src.w asf dst.w adf }

/-! ## Matrices, uniform blocks and the vertex stage of the primitives -/

/-- The sixteen floats `ChipmunkDebugDraw.c` writes for the transform `t`, in the order of the
initialisers of `u_P`, `u_MVP` and `u_lightMatrix`. -/
def transformMatrix (t : cpTransform) : List ℚ :=
  [t.a, t.b, 0, 0,
   t.c, t.d, 0, 0,
   0, 0, 1, 0,
   t.tx, t.ty, 0, 1]

/-- The GLSL product of a `mat4` and a `vec4`. A `mat4` is stored column by column, so the
entry of row `r` and column `c` is the float number `4*c + r`. -/
def mat4MulVec4 (m : List ℚ) (v : pvec4) : pvec4 :=
  { x := m.getD 0 0 * v.x + m.getD 4 0 * v.y + m.getD 8 0 * v.z + m.getD 12 0 * v.w
    y := m.getD 1 0 * v.x + m.getD 5 0 * v.y + m.getD 9 0 * v.z + m.getD 13 0 * v.w
    z := m.getD 2 0 * v.x + m.getD 6 0 * v.y + m.getD 10 0 * v.z + m.getD 14 0 * v.w
    w := m.getD 3 0 * v.x + m.getD 7 0 * v.y + m.getD 11 0 * v.z + m.getD 15 0 * v.w }

/-- The types of the members of the uniform blocks in the shader sources. -/
inductive GlslType where
  | float
  | vec4
  | mat4
deriving DecidableEq, Repr

/-- The size of a uniform block member under `layout(std140)`, in floats. -/
def GlslType.size : GlslType → Nat
  | GlslType.float => 1
  | GlslType.vec4 => 4
  | GlslType.mat4 => 16

/-- The base alignment of a uniform block member under `layout(std140)`, in floats: a `mat4`
is an array of four `vec4` columns. -/
def GlslType.alignment : GlslType → Nat
  | GlslType.float => 1
  | GlslType.vec4 => 4
  | GlslType.mat4 => 4

/-- The offsets, in floats, that `layout(std140)` gives the members of a uniform block: each
member starts at the next multiple of its base alignment after the member before it. -/
def std140Offsets : Nat → List (String × GlslType) → List (String × Nat × GlslType)
  | _, [] => []
  | cur, (name, ty) :: rest =>
    let off := (cur + ty.alignment - 1) / ty.alignment * ty.alignment
    (name, off, ty) :: std140Offsets (off + ty.size) rest

/-- The uniform block `PhotonGlobals` as the primitive and font shaders declare it. -/
def PhotonGlobals : List (String × GlslType) :=
  [("u_P", GlslType.mat4), ("u_MVP", GlslType.mat4), ("u_OutlineColor", GlslType.vec4),
   ("u_OutlineWidth", GlslType.float)]

/-- The uniform block `PhotonLocals` as `ShadowMaskVShader` declares it. -/
def PhotonLocals : List (String × GlslType) :=
  [("u_LightMatrix", GlslType.mat4), ("u_MVP", GlslType.mat4), ("u_Radius", GlslType.float)]

/-- The value a shader reads for the member `name` of a uniform block from the uploaded
floats `data`: the floats from the member's `std140` offset on, as many as its size. -/
def readUniform (block : List (String × GlslType)) (data : List ℚ) (name : String) : List ℚ :=
  match (std140Offsets 0 block).find? (fun m => m.1 == name) with
  | none => []
  | some (_, off, ty) => (data.drop off).take ty.size

/-- What the vertex stage of the primitives hands on. -/
structure PrimitiveVaryings where
  gl_Position : pvec4
  PhotonFragUV1 : pvec2
  PhotonFragUV2 : pvec2
  PhotonFragColor : pvec4
deriving DecidableEq, Repr

/-- The product of a `vec4` and a float, `v*s`. -/
def pvec4Scale (v : pvec4) (s : ℚ) : pvec4 := ⟨v.x * s, v.y * s, v.z * s, v.w * s⟩

/-- The `main` of `PrimitiveVShader`, for one vertex and the uniform `u_MVP`. -/
def PrimitiveVShader (u_MVP : List ℚ) (vertex : PhotonVertex) : PrimitiveVaryings :=
  { gl_Position := mat4MulVec4 u_MVP vertex.position
    PhotonFragUV1 := vertex.uv1
    PhotonFragUV2 := vertex.uv2
    PhotonFragColor := pvec4Scale vertex.color vertex.color.w }

/-- The first branch of `ColorForShape`, the colour of a sensor shape: `LAColor(1.0, 0.5)` with
its alpha then set to `0.1`. -/
def sensorColor : cpSpaceDebugColor := { r := 1, g := 1, b := 1, a := 1 / 10 }

/-! ## `ChipmunkDebugDrawBegin` and `ShadowsBegin` -/

/-- Modelled from the spec: `cpTransformTranslate` of `chipmunk/cpTransform.h` (not among the
sources), the translation by a vector. -/
def cpTransformTranslate (translate : cpVect) : cpTransform :=
  { a := 1, b := 0, c := 0, d := 1, tx := translate.x, ty := translate.y }

/-- Modelled from the spec: `cpTransformInverse` of `chipmunk/cpTransform.h` (not among the
sources), the inverse of an affine transform, computed with `1/(a*d - c*b)`. -/
def cpTransformInverse (t : cpTransform) : cpTransform :=
  let inv_det := 1 / (t.a * t.d - t.c * t.b)
  { a := t.d * inv_det
    c := -t.c * inv_det
    tx := (t.c * t.ty - t.tx * t.d) * inv_det
    b := -t.b * inv_det
    d := t.a * inv_det
    ty := (t.tx * t.b - t.a * t.ty) * inv_det }

/-- Modelled from the spec: `cpTransformOrtho` of `chipmunk/cpTransform.h` (not among the
sources), the transform that maps the box `bb` onto the square from `-1` to `1`. -/
def cpTransformOrtho (bb : cpBB) : cpTransform :=
  { a := 2 / (bb.r - bb.l)
    c := 0
    tx := -(bb.r + bb.l) / (bb.r - bb.l)
    b := 0
    d := 2 / (bb.t - bb.b)
    ty := -(bb.t + bb.b) / (bb.t - bb.b) }

/-- Modelled from the spec: `cpfmin` of `chipmunk/chipmunk_types.h` (not among the sources), the
smaller of two numbers. -/
def cpfmin (a b : ℚ) : ℚ := if a < b then a else b

/-- A render state as the renderer keeps it: the blend mode and the floats uploaded as the
uniform block `PhotonLocals`. -/
structure PhotonRenderState where
  blendMode : PhotonBlendMode
  locals : List ℚ
deriving DecidableEq, Repr

/-- A call from `ChipmunkDebugDrawBegin` or `ShadowsBegin` into the renderer or libc. -/
inductive RendererCall where
  | PhotonRendererWait (ready : Bool)
  | printf (text : String)
  | PhotonRendererPrepare (size : pvec2)
  | PhotonRendererBindRenderTexture (clear : pvec4)
  | PhotonRendererSetGlobals (data : List ℚ)
  | PhotonRendererTemporaryUniforms
  | PhotonUniformsSetLocals (data : List ℚ)
  | PhotonRendererTemporaryRenderState (blendMode : PhotonBlendMode)
deriving DecidableEq, Repr

/-- The file-scope variables of `ChipmunkDebugDraw.c` that the frame set-up reads or writes
(`ChipmunkDebugDrawOutlineColor` is defined elsewhere), the floats the renderer holds as the
uniform block `PhotonGlobals`, and the calls made, in program order. `ShadowMaskState` is
`none` for `NULL`. The two light variables are the ones `RunDemo` assigns (kept in `DemoState`
there); here they hold whatever value they have when the frame begins. -/
structure DrawState where
  ChipmunkDebugDrawScaleFactor : ℚ
  ChipmunkDebugDrawProjection : cpTransform
  ChipmunkDebugDrawCamera : cpTransform
  ChipmunkDebugDrawLightPosition : cpVect
  ChipmunkDebugDrawLightRadius : ℚ
  ChipmunkDebugDrawOutlineColor : cpSpaceDebugColor
  LightMatrixInv : cpTransform
  ShadowMaskState : Option PhotonRenderState
  globals : List ℚ
  calls : List RendererCall
deriving DecidableEq, Repr

/-- The floats of the local struct `shadowMaskLocals` of `ShadowsBegin`, member after member:
`u_lightMatrix`, `u_MVP`, `u_Radius`. -/
def shadowMaskLocals (l lmvp : cpTransform) (radius : ℚ) : List ℚ :=
  transformMatrix l ++ transformMatrix lmvp ++ [radius]

/-- `ShadowsBegin(mvp)`. -/
def ShadowsBegin (mvp : cpTransform) (d : DrawState) : DrawState :=
  let l := cpTransformTranslate d.ChipmunkDebugDrawLightPosition
  let lmvp := cpTransformMult mvp l
  let data := shadowMaskLocals l lmvp d.ChipmunkDebugDrawLightRadius
  { d with
    calls := d.calls ++ [RendererCall.PhotonRendererTemporaryUniforms,
      RendererCall.PhotonUniformsSetLocals data,
      RendererCall.PhotonRendererTemporaryRenderState ShadowMaskBlend]
    ShadowMaskState := some { blendMode := ShadowMaskBlend, locals := data }
    LightMatrixInv := cpTransformInverse l }

/-- The floats of the local struct `globals` of `ChipmunkDebugDrawBegin`, member after member:
`u_P`, `u_MVP`, `u_OutlineColor`, `u_OutlineWidth`. -/
def globalsData (p mvp : cpTransform) (outlineColor : pvec4) (outlineWidth : ℚ) : List ℚ :=
  transformMatrix p ++ transformMatrix mvp
    ++ [outlineColor.x, outlineColor.y, outlineColor.z, outlineColor.w] ++ [outlineWidth]

/-- `ChipmunkDebugDrawBegin(width, height)`. The loop at its head waits for the renderer;
`waits` is the number of times `PhotonRendererWait` answers "not ready" before it answers
"ready". -/
def ChipmunkDebugDrawBegin (waits : Nat) (width height : Int) (d : DrawState) : DrawState :=
  let sync := (List.replicate waits
      [RendererCall.PhotonRendererWait false, RendererCall.printf "Sync on renderer\n"]).flatten
    ++ [RendererCall.PhotonRendererWait true]
  let clear : pvec4 := ⟨236 / 256, 115 / 256, 87 / 256, 0⟩
  let p := d.ChipmunkDebugDrawProjection
  let mvp := cpTransformMult d.ChipmunkDebugDrawProjection
    (cpTransformInverse d.ChipmunkDebugDrawCamera)
  let data := globalsData p mvp (MakeColor d.ChipmunkDebugDrawOutlineColor)
    d.ChipmunkDebugDrawScaleFactor
  ShadowsBegin mvp
    { d with
      calls := d.calls ++ sync ++ [RendererCall.PhotonRendererPrepare ⟨width, height⟩,
        RendererCall.PhotonRendererBindRenderTexture clear,
        RendererCall.PhotonRendererSetGlobals data]
      globals := data }

/-- The helper `transform(mat4 m, vec2 v)` of `ShadowMaskVShader`: `(m*vec4(v, 0, 1)).xy`. -/
def glsl_transform (m : List ℚ) (v : pvec2) : pvec2 :=
  ⟨(mat4MulVec4 m ⟨v.x, v.y, 0, 1⟩).x, (mat4MulVec4 m ⟨v.x, v.y, 0, 1⟩).y⟩

/-- A draw state to evaluate the frame set-up on: the projection halves both axes, the camera
is shifted by `(10, 20)`, the light is at `(-1000, 1000)` with radius `50` (the values `RunDemo`
assigns). -/
def exampleDrawState : DrawState :=
  { ChipmunkDebugDrawScaleFactor := 1
    ChipmunkDebugDrawProjection := ⟨1 / 2, 0, 0, 1 / 2, 0, 0⟩
    ChipmunkDebugDrawCamera := ⟨1, 0, 0, 1, 10, 20⟩
    ChipmunkDebugDrawLightPosition := cpv (-1000) 1000
    ChipmunkDebugDrawLightRadius := 50
    ChipmunkDebugDrawOutlineColor := ⟨1, 1, 1, 1⟩
    LightMatrixInv := ⟨1, 0, 0, 1, 0, 0⟩
    ShadowMaskState := none
    globals := []
    calls := [] }

/-! ## `Reshape` and `SetupGLFW` -/

/-- The five callbacks of `ChipmunkDemo.c` that `SetupGLFW` registers. -/
inductive Handler where
  | Reshape
  | Keyboard
  | SpecialKeyboard
  | Mouse
  | Click
deriving DecidableEq, Repr

/-- A call from `SetupGLFW` or `Reshape` that leaves the file; a window is named by a number.
`cpMessage` and `abort` are what a failed `cpAssertHard` runs. -/
inductive GlfwCall where
  | glfwInit
  | cpMessage (condition : String) (message : String)
  | abort
  | glfwSwapInterval (interval : Int)
  | glfwWindowHint (hint : String) (value : String)
  | glfwCreateWindow (width height : Int) (title : String)
  | glfwSetWindowTitle (window : Nat) (index : Int) (name : String)
  | glfwSetWindowSizeCallback (window : Nat) (callback : Handler)
  | glfwSetCharCallback (window : Nat) (callback : Handler)
  | glfwSetKeyCallback (window : Nat) (callback : Handler)
  | glfwSetCursorPosCallback (window : Nat) (callback : Handler)
  | glfwSetMouseButtonCallback (window : Nat) (callback : Handler)
  | glfwMakeContextCurrent (window : Nat)
  | glfwGetFramebufferSize (window : Nat)
  | glViewport (x y width height : Int)
deriving DecidableEq, Repr

/-- Whether a call registers a callback. -/
def GlfwCall.registersCallback : GlfwCall → Bool
  | GlfwCall.glfwSetWindowSizeCallback _ _ => true
  | GlfwCall.glfwSetCharCallback _ _ => true
  | GlfwCall.glfwSetKeyCallback _ _ => true
  | GlfwCall.glfwSetCursorPosCallback _ _ => true
  | GlfwCall.glfwSetMouseButtonCallback _ _ => true
  | _ => false

/-- How `SetupGLFW` ends: it returns a window, or the process is aborted. -/
inductive SetupResult where
  | returned (window : Nat)
  | aborted
deriving DecidableEq, Repr

/-- `Reshape(window, wwidth, wheight)`: the new draw state and the calls made. `width` and
`height` are what `glfwGetFramebufferSize` stores. -/
def Reshape (window : Nat) (width height : Int) (d : DrawState) : DrawState × List GlfwCall :=
  let scale : ℚ := cpfmin (width / 640) (height / 480)
  let hw : ℚ := width * ((1 / 2) / scale)
  let hh : ℚ := height * ((1 / 2) / scale)
  ({ d with
      ChipmunkDebugDrawScaleFactor := scale
      ChipmunkDebugDrawProjection := cpTransformOrtho ⟨-hw, -hh, hw, hh⟩ },
   [GlfwCall.glfwGetFramebufferSize window, GlfwCall.glViewport 0 0 width height])

/-- `SetupGLFW()`: the calls it makes, how it ends, and the draw state it leaves.
`glfwInitResult` is what `glfwInit()` returns, `created` what `glfwCreateWindow` returns (`none`
for `NULL`), `width` and `height` what `glfwGetFramebufferSize` stores, and `index`, `name` are
`demo_index` and `demos[demo_index].name`, from which `DemoTitle` formats the title.
Modelled from the spec: the macro `cpAssertHard` of `chipmunk/chipmunk.h` (not among the
sources) reports a false condition through `cpMessage` and aborts the process. -/
def SetupGLFW (glfwInitResult : Int) (created : Option Nat) (width height : Int) (index : Int)
    (name : String) (d : DrawState) : List GlfwCall × SetupResult × DrawState :=
  if glfwInitResult = 0 then
    ([GlfwCall.glfwInit, GlfwCall.cpMessage "glfwInit()" "Error initializing GLFW.",
      GlfwCall.abort], SetupResult.aborted, d)
  else
    let calls := [GlfwCall.glfwInit, GlfwCall.glfwSwapInterval 1,
      GlfwCall.glfwWindowHint "GLFW_CONTEXT_VERSION_MAJOR" "3",
      GlfwCall.glfwWindowHint "GLFW_CONTEXT_VERSION_MINOR" "3",
      GlfwCall.glfwWindowHint "GLFW_OPENGL_FORWARD_COMPAT" "GL_TRUE",
      GlfwCall.glfwWindowHint "GLFW_OPENGL_PROFILE" "GLFW_OPENGL_CORE_PROFILE",
      GlfwCall.glfwCreateWindow 800 600 "Chipmunk2D"]
    match created with
    | none =>
      (calls ++ [GlfwCall.cpMessage "window" "Error opening GLFW window.", GlfwCall.abort],
        SetupResult.aborted, d)
    | some window =>
      let r := Reshape window width height d
      (calls ++ [GlfwCall.glfwSetWindowTitle window index name,
          GlfwCall.glfwSetWindowSizeCallback window Handler.Reshape,
          GlfwCall.glfwSetCharCallback window Handler.Keyboard,
          GlfwCall.glfwSetKeyCallback window Handler.SpecialKeyboard,
          GlfwCall.glfwSetCursorPosCallback window Handler.Mouse,
          GlfwCall.glfwSetMouseButtonCallback window Handler.Click,
          GlfwCall.glfwMakeContextCurrent window] ++ r.2,
        SetupResult.returned window, r.1)

/-! ## The penumbra factor of one edge, over any ordered field -/

/-- One component of the local `p` of `ShadowMaskFShader`: `clamp(x/y, -1, 1)` for the penumbra
pair `(x, y)`, with `clamp(r, lo, hi) = min(max(r, lo), hi)`. The arithmetic is that of an
ordered field `K` (the rationals, the reals). -/
def penumbraRatio {K : Type} [LinearOrderedField K] (x y : K) : K :=
  min (max (x / y) (-1)) 1

/-- The smooth factor `p*(3 - p*p)*0.25 + 0.5` of `ShadowMaskFShader`. -/
def penumbraFactor {K : Type} [LinearOrderedField K] (p : K) : K :=
  p * (3 - p * p) * (1 / 4) + 1 / 2

/-- One component of the local `value` of `ShadowMaskFShader` for the penumbra pair `(x, y)`:
`mix(p*(3 - p*p)*0.25 + 0.5, 1, step(y, 0))`, where `mix(u, v, a) = u*(1 - a) + v*a` and
`step(y, 0)` is `0` when `0 < y` and `1` otherwise. -/
def penumbraEdgeValue {K : Type} [LinearOrderedField K] (x y : K) : K :=
  penumbraFactor (penumbraRatio x y) * (1 - (if (0 : K) < y then 0 else 1))
    + 1 * (if (0 : K) < y then 0 else 1)

/-! # Theorems -/

/-! ## Helper lemmas on `Tick` and the loop of `Update` -/

lemma Tick_Accumulator {σ : Type} (demos : Int → ChipmunkDemo σ) (dt : ℚ) (s : DemoState σ) :
    (Tick demos dt s).Accumulator = s.Accumulator := by
  unfold Tick; split <;> rfl

lemma Tick_demo_index {σ : Type} (demos : Int → ChipmunkDemo σ) (dt : ℚ) (s : DemoState σ) :
    (Tick demos dt s).demo_index = s.demo_index := by
  unfold Tick; split <;> rfl

lemma Tick_set_Accumulator {σ : Type} (demos : Int → ChipmunkDemo σ) (dt a : ℚ)
    (s : DemoState σ) :
    Tick demos dt { s with Accumulator := a } = { Tick demos dt s with Accumulator := a } := by
  unfold Tick; split <;> rfl

lemma Tick_iterate_set_Accumulator {σ : Type} (demos : Int → ChipmunkDemo σ) (dt a : ℚ) (k : Nat)
    (s : DemoState σ) :
    (Tick demos dt)^[k] { s with Accumulator := a }
      = { (Tick demos dt)^[k] s with Accumulator := a } := by
  induction k generalizing s with
  | zero => rfl
  | succ k ih =>
    rw [Function.iterate_succ_apply, Function.iterate_succ_apply, Tick_set_Accumulator, ih]

lemma Tick_Time {σ : Type} (demos : Int → ChipmunkDemo σ) (dt : ℚ) (s : DemoState σ) :
    (Tick demos dt s).ChipmunkDemoTime = s.ChipmunkDemoTime + (if running s then dt else 0) := by
  unfold Tick running; split <;> simp

lemma Tick_Ticks {σ : Type} (demos : Int → ChipmunkDemo σ) (dt : ℚ) (s : DemoState σ) :
    (Tick demos dt s).ChipmunkDemoTicks = s.ChipmunkDemoTicks + (if running s then 1 else 0) := by
  unfold Tick running; split <;> simp

/-- What the loop of `Update` computes when it ends: `k` calls of `Tick(fixed_dt)`, and
`Accumulator` lowered `k` times by `fixed_dt`, to a value that is at most `fixed_dt`; the loop
condition held before each of the `k` passes. -/
lemma UpdateLoop_eq {σ : Type} (demos : Int → ChipmunkDemo σ) (fixed_dt : ℚ) :
    ∀ (fuel : Nat) (s s' : DemoState σ), UpdateLoop demos fixed_dt fuel s = some s' →
      ∃ k : Nat, k ≤ fuel ∧
        s' = { (Tick demos fixed_dt)^[k] s with Accumulator := s.Accumulator - k * fixed_dt } ∧
        s'.Accumulator ≤ fixed_dt ∧
        ∀ j : Nat, j < k → s.Accumulator - j * fixed_dt > fixed_dt := by
  intro fuel
  induction fuel with
  | zero =>
    intro s s' h
    unfold UpdateLoop at h
    split at h
    · cases h
    · rename_i hle
      cases h
      refine ⟨0, le_refl _, ?_, not_lt.mp hle, ?_⟩
      · simp
      · intro j hj; omega
  | succ fuel ih =>
    intro s s' h
    unfold UpdateLoop at h
    split at h
    · rename_i hgt
      obtain ⟨k, hk, hs', hle, hall⟩ := ih _ _ h
      refine ⟨k + 1, by omega, ?_, hle, ?_⟩
      · rw [hs', Function.iterate_succ_apply, Tick_iterate_set_Accumulator]
        simp only [Tick_Accumulator]
        congr 1
        push_cast
        ring
      · intro j hj
        cases j with
        | zero => simpa using hgt
        | succ j =>
          have := hall j (by omega)
          simp only [Tick_Accumulator] at this
          push_cast
          linarith
    · rename_i hle
      cases h
      refine ⟨0, Nat.zero_le _, ?_, not_lt.mp hle, ?_⟩
      · simp
      · intro j hj; omega

/-- The loop of `Update` ends when the timestep is positive: fuel `n` is enough as soon as
`Accumulator ≤ (n + 1) * fixed_dt`. -/
lemma UpdateLoop_fuel {σ : Type} (demos : Int → ChipmunkDemo σ) (fixed_dt : ℚ)
    (hpos : 0 < fixed_dt) :
    ∀ (fuel : Nat) (s : DemoState σ), s.Accumulator ≤ (fuel + 1) * fixed_dt →
      ∃ s', UpdateLoop demos fixed_dt fuel s = some s' := by
  intro fuel
  induction fuel with
  | zero =>
    intro s h
    unfold UpdateLoop
    have : ¬ s.Accumulator > fixed_dt := by
      simp at h; exact not_lt.mpr h
    simp [this]
  | succ fuel ih =>
    intro s h
    unfold UpdateLoop
    split
    · apply ih
      simp only [Tick_Accumulator]
      push_cast at h
      linarith
    · exact ⟨s, rfl⟩

lemma UpdateLoop_terminates {σ : Type} (demos : Int → ChipmunkDemo σ) (fixed_dt : ℚ)
    (hpos : 0 < fixed_dt) (s : DemoState σ) :
    ∃ fuel s', UpdateLoop demos fixed_dt fuel s = some s' := by
  obtain ⟨n, hn⟩ := exists_nat_ge (s.Accumulator / fixed_dt)
  refine ⟨n, UpdateLoop_fuel demos fixed_dt hpos n s ?_⟩
  have h1 : s.Accumulator ≤ n * fixed_dt := (div_le_iff₀ hpos).mp hn
  linarith

/-- `Update` ends when the timestep of the current demo is positive. -/
lemma Update_terminates {σ : Type} (demos : Int → ChipmunkDemo σ) (time : ℚ) (s : DemoState σ)
    (hpos : 0 < (demos s.demo_index).timestep) :
    ∃ fuel s', Update demos fuel time s = some s' := by
  obtain ⟨fuel, s1, h⟩ := UpdateLoop_terminates demos (demos s.demo_index).timestep hpos
    { s with Accumulator := s.Accumulator + UpdateDt time s.LastTime }
  exact ⟨fuel, { s1 with LastTime := time }, by simp [Update, h]⟩

/-- `Update` is `k` calls of `Tick` with the timestep of the current demo, for some `k`. -/
lemma Update_eq {σ : Type} (demos : Int → ChipmunkDemo σ) (fuel : Nat) (time : ℚ)
    (s s' : DemoState σ) (h : Update demos fuel time s = some s') :
    ∃ k : Nat, k ≤ fuel ∧
      s' = { (Tick demos (demos s.demo_index).timestep)^[k] s with
              Accumulator := s.Accumulator + UpdateDt time s.LastTime
                - k * (demos s.demo_index).timestep
              LastTime := time } ∧
      s'.Accumulator ≤ (demos s.demo_index).timestep ∧
      ∀ j : Nat, j < k → s.Accumulator + UpdateDt time s.LastTime
        - j * (demos s.demo_index).timestep > (demos s.demo_index).timestep := by
  unfold Update at h
  simp only at h
  split at h
  · cases h
  · rename_i s1 h1
    cases h
    obtain ⟨k, hk, hs1, hle, hall⟩ := UpdateLoop_eq demos _ _ _ _ h1
    refine ⟨k, hk, ?_, hle, hall⟩
    rw [hs1, Tick_iterate_set_Accumulator]

/-! ## C1: simulated time advances by the timestep, one tick at a time -/


lemma KeyboardView_frame {σ : Type} (key : Nat) (s : DemoState σ) :
    (KeyboardView key s).ChipmunkDemoTime = s.ChipmunkDemoTime ∧
    (KeyboardView key s).ChipmunkDemoTicks = s.ChipmunkDemoTicks ∧
    (KeyboardView key s).demo_index = s.demo_index ∧
    (KeyboardView key s).PrintStringCursor = s.PrintStringCursor ∧
    (KeyboardView key s).PrintStringBuffer = s.PrintStringBuffer := by
  unfold KeyboardView
  simp only
  split_ifs <;> simp


lemma PrintString_frame {σ : Type} (out : Option (List Nat)) (s : DemoState σ) :
    (ChipmunkDemoPrintString out s).ChipmunkDemoTime = s.ChipmunkDemoTime ∧
    (ChipmunkDemoPrintString out s).ChipmunkDemoTicks = s.ChipmunkDemoTicks ∧
    (ChipmunkDemoPrintString out s).demo_index = s.demo_index := by
  unfold ChipmunkDemoPrintString
  split
  · simp
  · simp only
    split_ifs <;> simp


/-- The relation between the two clocks: `ChipmunkDemoTime` is `ChipmunkDemoTicks` times the
timestep of the current demo. -/
lemma TimeTicks_Tick {σ : Type} (demos : Int → ChipmunkDemo σ) (s : DemoState σ)
    (h : s.ChipmunkDemoTime = s.ChipmunkDemoTicks * (demos s.demo_index).timestep) (k : Nat) :
    ((Tick demos (demos s.demo_index).timestep)^[k] s).ChipmunkDemoTime
      = ((Tick demos (demos s.demo_index).timestep)^[k] s).ChipmunkDemoTicks
        * (demos s.demo_index).timestep ∧
    ((Tick demos (demos s.demo_index).timestep)^[k] s).demo_index = s.demo_index := by
  induction k with
  | zero => exact ⟨h, rfl⟩
  | succ k ih =>
    rw [Function.iterate_succ_apply']
    refine ⟨?_, ?_⟩
    · rw [Tick_Time, Tick_Ticks, ih.1]
      split <;> push_cast <;> ring
    · rw [Tick_demo_index, ih.2]


lemma TimeTicks_Keyboard {σ : Type} (demos : Int → ChipmunkDemo σ) (now : ℚ) (key : Nat)
    (s : DemoState σ)
    (h : s.ChipmunkDemoTime = s.ChipmunkDemoTicks * (demos s.demo_index).timestep) :
    (Keyboard demos now key s).ChipmunkDemoTime
      = (Keyboard demos now key s).ChipmunkDemoTicks
        * (demos (Keyboard demos now key s).demo_index).timestep := by
  unfold Keyboard
  obtain ⟨h1, h2, h3, -, -⟩ := KeyboardView_frame key (KeyboardDemo demos now key s)
  rw [h1, h2, h3]
  unfold KeyboardDemo
  split_ifs
  · simp [RunDemo]
  · simp [RunDemo]
  · exact h
  · exact h
  · exact h
  · exact h


lemma TimeTicks_Reachable {σ : Type} (demos : Int → ChipmunkDemo σ) (s0 s : DemoState σ)
    (h0 : s0.ChipmunkDemoTime = s0.ChipmunkDemoTicks * (demos s0.demo_index).timestep)
    (h : Reachable demos s0 s) :
    s.ChipmunkDemoTime = s.ChipmunkDemoTicks * (demos s.demo_index).timestep := by
  induction h with
  | start => exact h0
  | runDemo s now index _ _ => simp [RunDemo]
  | update s s' fuel time _ hu ih =>
    obtain ⟨k, -, hs', -, -⟩ := Update_eq demos fuel time s s' hu
    have := TimeTicks_Tick demos s ih k
    rw [hs']
    simp only
    rw [this.1, this.2]
  | keyboard s now key _ ih => exact TimeTicks_Keyboard demos now key s ih
  | printString s out _ ih =>
    obtain ⟨h1, h2, h3⟩ := PrintString_frame out s
    rw [h1, h2, h3]; exact ih


/-- C1. A `Tick(dt)` adds exactly `dt` to `ChipmunkDemoTime` and exactly `1` to
`ChipmunkDemoTicks` when the demo is running (not paused, or a step is pending) and adds `0` to
both otherwise; what `Update` does, whenever it returns, is some number `k` of calls
`Tick(demos[demo_index].timestep)` (plus the bookkeeping of `Accumulator` and `LastTime`), and it
does return when that timestep is positive; hence in every state reached from the state `RunDemo`
leaves, `ChipmunkDemoTime = ChipmunkDemoTicks * demos[demo_index].timestep`. -/
theorem Tick_advances_by_timestep {σ : Type} (demos : Int → ChipmunkDemo σ) :
    (∀ (dt : ℚ) (s : DemoState σ),
      (Tick demos dt s).ChipmunkDemoTime = s.ChipmunkDemoTime + (if running s then dt else 0) ∧
      (Tick demos dt s).ChipmunkDemoTicks = s.ChipmunkDemoTicks + (if running s then 1 else 0)) ∧
    (∀ (fuel : Nat) (time : ℚ) (s s' : DemoState σ), Update demos fuel time s = some s' →
      ∃ k : Nat, s' = { (Tick demos (demos s.demo_index).timestep)^[k] s with
        Accumulator := s.Accumulator + UpdateDt time s.LastTime
          - k * (demos s.demo_index).timestep
        LastTime := time }) ∧
    (∀ (time : ℚ) (s : DemoState σ), 0 < (demos s.demo_index).timestep →
      ∃ fuel s', Update demos fuel time s = some s') ∧
    (∀ (s0 s : DemoState σ) (now : ℚ) (index : Int),
      Reachable demos (RunDemo demos now index s0) s →
      s.ChipmunkDemoTime = s.ChipmunkDemoTicks * (demos s.demo_index).timestep) := by
  refine ⟨fun dt s => ⟨Tick_Time demos dt s, Tick_Ticks demos dt s⟩, ?_, ?_, ?_⟩
  · intro fuel time s s' h
    obtain ⟨k, -, hs', -, -⟩ := Update_eq demos fuel time s s' h
    exact ⟨k, hs'⟩
  · intro time s hpos
    exact Update_terminates demos time s hpos
  · intro s0 s now index h
    exact TimeTicks_Reachable demos _ s (by simp [RunDemo]) h

lemma exampleUpdate : Update exampleDemos 2 (1 / 20) exampleStart = some exampleAfter := by
  norm_num [Update, UpdateLoop, UpdateDt, exampleStart, exampleAfter, RunDemo, exampleDemos, Tick,
    initialState]

/-- C1 at the example table: `Update` at time `1/20` after `RunDemo` is two ticks of `1/60`. -/
theorem Tick_advances_by_timestep_witness :
    Update exampleDemos 2 (1 / 20) exampleStart = some exampleAfter ∧
    Reachable exampleDemos (RunDemo exampleDemos 0 0 (initialState 2 0)) exampleAfter ∧
    (∃ k : Nat, exampleAfter = { (Tick exampleDemos (exampleDemos exampleStart.demo_index).timestep)^[k]
        exampleStart with
      Accumulator := exampleStart.Accumulator + UpdateDt (1 / 20) exampleStart.LastTime
        - k * (exampleDemos exampleStart.demo_index).timestep
      LastTime := 1 / 20 }) ∧
    exampleAfter.ChipmunkDemoTime
      = exampleAfter.ChipmunkDemoTicks * (exampleDemos exampleAfter.demo_index).timestep :=
  ⟨exampleUpdate,
   Reachable.update _ _ 2 (1 / 20) Reachable.start exampleUpdate,
   (Tick_advances_by_timestep exampleDemos).2.1 2 (1 / 20) exampleStart exampleAfter exampleUpdate,
   (Tick_advances_by_timestep exampleDemos).2.2.2 (initialState 2 0) exampleAfter 0 0
     (Reachable.update _ _ 2 (1 / 20) Reachable.start exampleUpdate)⟩

/-! ## C2: the wall-clock delta is cut to `0.2` -/

lemma UpdateDt_eq_min (time lastTime : ℚ) :
    UpdateDt time lastTime = min (time - lastTime) (1 / 5) := by
  unfold UpdateDt
  simp only
  split
  · rename_i h; rw [min_eq_right (le_of_lt h)]
  · rename_i h; rw [min_eq_left (not_lt.mp h)]

/-- C2. The local `dt` that `Update` adds to `Accumulator` is `min(time - LastTime, 0.2)`: it is
at most `0.2`, and it is the true delta when that is at most `0.2`. Whenever `Update` returns,
`LastTime` is the current time and `Accumulator` is its old value plus that minimum, less one
timestep for each of the `k` ticks run; and `Update` does return when the timestep is positive. -/
theorem Update_clamps_delta {σ : Type} (demos : Int → ChipmunkDemo σ) (time : ℚ)
    (s : DemoState σ) :
    UpdateDt time s.LastTime = min (time - s.LastTime) (1 / 5) ∧
    UpdateDt time s.LastTime ≤ 1 / 5 ∧
    (time - s.LastTime ≤ 1 / 5 → UpdateDt time s.LastTime = time - s.LastTime) ∧
    (∀ (fuel : Nat) (s' : DemoState σ), Update demos fuel time s = some s' →
      s'.LastTime = time ∧
      ∃ k : Nat, s' = { (Tick demos (demos s.demo_index).timestep)^[k]
            { s with Accumulator := s.Accumulator + min (time - s.LastTime) (1 / 5) } with
          Accumulator := s.Accumulator + min (time - s.LastTime) (1 / 5)
            - k * (demos s.demo_index).timestep
          LastTime := time }) ∧
    (0 < (demos s.demo_index).timestep → ∃ fuel s', Update demos fuel time s = some s') := by
  refine ⟨UpdateDt_eq_min _ _, ?_, ?_, ?_, Update_terminates demos time s⟩
  · rw [UpdateDt_eq_min]; exact min_le_right _ _
  · intro h; rw [UpdateDt_eq_min]; exact min_eq_left h
  · intro fuel s' h
    obtain ⟨k, -, hs', -, -⟩ := Update_eq demos fuel time s s' h
    refine ⟨by rw [hs'], k, ?_⟩
    rw [hs', UpdateDt_eq_min, Tick_iterate_set_Accumulator demos _
      (s.Accumulator + min (time - s.LastTime) (1 / 5)) k s]

lemma exampleUpdateLate : Update exampleDemos 11 1 exampleStart = some exampleAfterLate := by
  norm_num [Update, UpdateLoop, UpdateDt, exampleStart, exampleAfterLate, RunDemo, exampleDemos,
    Tick, initialState]

/-- C2 at the example table: called at time `1` with `LastTime = 0`, `Update` adds `1/5`, not
`1`, and sets `LastTime` to `1`; called at time `1/20` the delta is added as it is. -/
theorem Update_clamps_delta_witness :
    Update exampleDemos 11 1 exampleStart = some exampleAfterLate ∧
    UpdateDt 1 exampleStart.LastTime = 1 / 5 ∧
    exampleAfterLate.LastTime = 1 ∧
    (1 / 20 - exampleStart.LastTime ≤ (1 / 5 : ℚ)) ∧
    UpdateDt (1 / 20) exampleStart.LastTime = 1 / 20 - exampleStart.LastTime ∧
    (0 < (exampleDemos exampleStart.demo_index).timestep) ∧
    (∃ fuel s', Update exampleDemos fuel 1 exampleStart = some s') :=
  ⟨exampleUpdateLate,
   by norm_num [UpdateDt, exampleStart, RunDemo],
   ((Update_clamps_delta exampleDemos 1 exampleStart).2.2.2.1 11 exampleAfterLate
      exampleUpdateLate).1,
   by norm_num [exampleStart, RunDemo],
   (Update_clamps_delta exampleDemos (1 / 20) exampleStart).2.2.1
      (by norm_num [exampleStart, RunDemo]),
   by norm_num [exampleDemos],
   (Update_clamps_delta exampleDemos 1 exampleStart).2.2.2.2 (by norm_num [exampleDemos])⟩

/-! ## C3: the vertices and indices of a polygon -/

/-- The vertex `ChipmunkDebugDrawPolygon` stores for the polygon vertex `v`. -/
lemma PolygonVertexLoop_eq (verts : List cpVect) (attribs : pvec2) (color : pvec4) (k : Nat)
    (m : Batch) (b : PhotonRenderBuffers) :
    (List.range k).foldl
      (fun (st : Batch × PhotonRenderBuffers) i =>
        let v := verts.getD i (cpv 0 0)
        let r := PhotonVertexPush st.1 st.2.vertexes ⟨v.x, v.y, 0, 1⟩ PVEC2_0 attribs color
        (r.1, { st.2 with vertexes := r.2 }))
      (m, b)
    = ({ m with vertexWrites := m.vertexWrites ++ (List.range k).map (fun i =>
          (b.vertexes + i,
            (⟨⟨(verts.getD i (cpv 0 0)).x, (verts.getD i (cpv 0 0)).y, 0, 1⟩, PVEC2_0, attribs,
              color⟩ : PhotonVertex))) },
       { b with vertexes := b.vertexes + k }) := by
  induction k with
  | zero => simp
  | succ k ih =>
    rw [List.range_succ, List.foldl_append, ih]
    simp [PhotonVertexPush, Nat.add_assoc]

lemma PolygonIndexLoop_eq (k : Nat) (m : Batch) (b : PhotonRenderBuffers) :
    (List.range k).foldl
      (fun (st : Batch × PhotonRenderBuffers) i =>
        let r := PhotonIndexesCopy st.1 st.2.indexes [0, i + 1, i + 2] 0 3 st.2.batchOffset
        (r.1, { st.2 with indexes := r.2 }))
      (m, b)
    = ({ m with indexWrites := m.indexWrites ++ (List.range k).flatMap (fun i =>
          [(b.indexes + 3 * i, 0 + b.batchOffset),
           (b.indexes + 3 * i + 1, i + 1 + b.batchOffset),
           (b.indexes + 3 * i + 2, i + 2 + b.batchOffset)]) },
       { b with indexes := b.indexes + 3 * k }) := by
  induction k with
  | zero => simp
  | succ k ih =>
    rw [List.range_succ, List.foldl_append, ih]
    simp [PhotonIndexesCopy, List.range_succ, List.flatMap_append, Nat.add_assoc, Nat.mul_succ]

lemma range_triples (k : Nat) :
    (List.range k).flatMap (fun i => [3 * i, 3 * i + 1, 3 * i + 2]) = List.range (3 * k) := by
  induction k with
  | zero => simp
  | succ k ih =>
    rw [List.range_succ, List.flatMap_append, ih]
    simp [Nat.mul_succ, List.range_succ]

/-- What `ChipmunkDebugDrawPolygon` requests and stores, for a count `n` that is not negative. -/
lemma ChipmunkDebugDrawPolygon_eq (base n : Nat) (verts : List cpVect) (radius : ℚ)
    (fill : cpSpaceDebugColor) :
    ChipmunkDebugDrawPolygon base (n : Int) verts radius fill
      = { triangles := (n : Int) - 2
          vertexCount := (n : Int)
          state := RenderState.PrimitiveState
          vertexWrites := (List.range n).map (fun i =>
            (i, (⟨⟨(verts.getD i (cpv 0 0)).x, (verts.getD i (cpv 0 0)).y, 0, 1⟩, PVEC2_0, ⟨1, 1⟩,
              MakeColor fill⟩ : PhotonVertex)))
          indexWrites := (List.range (n - 2)).flatMap (fun i =>
            [(3 * i, 0 + base), (3 * i + 1, i + 1 + base), (3 * i + 2, i + 2 + base)]) } := by
  have h2 : ((n : Int) - 2).toNat = n - 2 := by omega
  unfold ChipmunkDebugDrawPolygon PolygonVertexLoop PolygonIndexLoop PhotonRendererEnqueueTriangles
  simp only [Int.toNat_ofNat, h2]
  rw [PolygonVertexLoop_eq, PolygonIndexLoop_eq]
  simp

/-- C3. For every `n ≥ 3` and every array `verts` of `n` vertices, `ChipmunkDebugDrawPolygon`
requests `n - 2` triangles and `n` vertices from the renderer, stores exactly `n` vertices, at
the offsets `0, …, n - 1` in this order, the one at offset `i` with position
`(verts[i].x, verts[i].y, 0, 1)`, and stores exactly `3(n - 2)` indices, at the offsets
`0, …, 3(n - 2) - 1` in this order; the indices are, before the batch offset is added, the fan
`0, i + 1, i + 2` for `i = 0, …, n - 3`, each of them less than `n`. -/
theorem ChipmunkDebugDrawPolygon_emits (base n : Nat) (verts : List cpVect) (radius : ℚ)
    (fill : cpSpaceDebugColor) (hn : 3 ≤ n) (hlen : verts.length = n) :
    (ChipmunkDebugDrawPolygon base (n : Int) verts radius fill).triangles = (n : Int) - 2 ∧
    (ChipmunkDebugDrawPolygon base (n : Int) verts radius fill).vertexCount = (n : Int) ∧
    (ChipmunkDebugDrawPolygon base (n : Int) verts radius fill).vertexWrites.length = n ∧
    (ChipmunkDebugDrawPolygon base (n : Int) verts radius fill).vertexWrites.map Prod.fst
      = List.range n ∧
    (ChipmunkDebugDrawPolygon base (n : Int) verts radius fill).vertexWrites.map
        (fun w => w.2.position)
      = verts.map (fun v => (⟨v.x, v.y, 0, 1⟩ : pvec4)) ∧
    (ChipmunkDebugDrawPolygon base (n : Int) verts radius fill).indexWrites.length
      = 3 * (n - 2) ∧
    (ChipmunkDebugDrawPolygon base (n : Int) verts radius fill).indexWrites.map Prod.fst
      = List.range (3 * (n - 2)) ∧
    (ChipmunkDebugDrawPolygon base (n : Int) verts radius fill).indexWrites.map Prod.snd
      = (List.range (n - 2)).flatMap (fun i => [0 + base, i + 1 + base, i + 2 + base]) ∧
    (∀ w ∈ (ChipmunkDebugDrawPolygon base (n : Int) verts radius fill).indexWrites,
      ∃ r : Nat, r < n ∧ w.2 = r + base) := by
  rw [ChipmunkDebugDrawPolygon_eq]
  have hfst : List.map Prod.fst ((List.range (n - 2)).flatMap (fun i =>
      [(3 * i, 0 + base), (3 * i + 1, i + 1 + base), (3 * i + 2, i + 2 + base)]))
      = List.range (3 * (n - 2)) := by
    rw [← range_triples]
    simp [List.map_flatMap]
  refine ⟨rfl, rfl, by simp, by simp [Function.comp_def], ?_, ?_, hfst, ?_, ?_⟩
  · simp only [List.map_map]
    apply List.ext_getElem
    · simp [hlen]
    · intro i h1 h2
      simp at h1 h2
      simp [List.getD_eq_getElem?_getD, List.getElem?_eq_getElem h2]
  · have := congrArg List.length hfst
    simpa using this
  · simp [List.map_flatMap]
  · intro w hw
    simp only [List.mem_flatMap, List.mem_range] at hw
    obtain ⟨i, hi, hw⟩ := hw
    simp at hw
    rcases hw with rfl | rfl | rfl
    · exact ⟨0, by omega, by simp⟩
    · exact ⟨i + 1, by omega, rfl⟩
    · exact ⟨i + 2, by omega, rfl⟩

/-- C3 at the bounding box `[0, 2] × [0, 1]` drawn by `ChipmunkDebugDrawBB` with batch offset `7`:
four vertices, the two triangles `(0, 1, 2)` and `(0, 2, 3)` of the fan, offset by `7`. -/
theorem ChipmunkDebugDrawPolygon_emits_witness :
    (3 ≤ 4 ∧ [cpv 2 0, cpv 2 1, cpv 0 1, cpv 0 0].length = 4) ∧
    (ChipmunkDebugDrawBB 7 ⟨0, 0, 2, 1⟩ ⟨1, 0, 0, 1⟩).vertexWrites.length = 4 ∧
    (ChipmunkDebugDrawBB 7 ⟨0, 0, 2, 1⟩ ⟨1, 0, 0, 1⟩).vertexWrites.map (fun w => w.2.position)
      = [⟨2, 0, 0, 1⟩, ⟨2, 1, 0, 1⟩, ⟨0, 1, 0, 1⟩, ⟨0, 0, 0, 1⟩] ∧
    (ChipmunkDebugDrawBB 7 ⟨0, 0, 2, 1⟩ ⟨1, 0, 0, 1⟩).indexWrites.length = 6 ∧
    (ChipmunkDebugDrawBB 7 ⟨0, 0, 2, 1⟩ ⟨1, 0, 0, 1⟩).indexWrites.map Prod.snd
      = [7, 8, 9, 7, 9, 10] :=
  ⟨⟨by decide, rfl⟩,
   (ChipmunkDebugDrawPolygon_emits 7 4 [cpv 2 0, cpv 2 1, cpv 0 1, cpv 0 0] 0 ⟨1, 0, 0, 1⟩
     (by decide) rfl).2.2.1,
   (ChipmunkDebugDrawPolygon_emits 7 4 [cpv 2 0, cpv 2 1, cpv 0 1, cpv 0 0] 0 ⟨1, 0, 0, 1⟩
     (by decide) rfl).2.2.2.2.1,
   (ChipmunkDebugDrawPolygon_emits 7 4 [cpv 2 0, cpv 2 1, cpv 0 1, cpv 0 0] 0 ⟨1, 0, 0, 1⟩
     (by decide) rfl).2.2.2.2.2.1,
   (ChipmunkDebugDrawPolygon_emits 7 4 [cpv 2 0, cpv 2 1, cpv 0 1, cpv 0 0] 0 ⟨1, 0, 0, 1⟩
     (by decide) rfl).2.2.2.2.2.2.2.1⟩

/-! ## C4: the emitters of fixed size -/

lemma DrawCircle_eq (base : Nat) (p : pvec2) (r1 r2 : ℚ) (color : pvec4) :
    DrawCircle base p r1 r2 color
      = { triangles := 2
          vertexCount := 4
          state := RenderState.PrimitiveState
          vertexWrites :=
            [(0, ⟨⟨p.x - r2, p.y - r2, 0, 1⟩, ⟨-r2, -r2⟩, ⟨r1, cpfmax r2 1⟩, color⟩),
             (1, ⟨⟨p.x - r2, p.y + r2, 0, 1⟩, ⟨-r2, r2⟩, ⟨r1, cpfmax r2 1⟩, color⟩),
             (2, ⟨⟨p.x + r2, p.y + r2, 0, 1⟩, ⟨r2, r2⟩, ⟨r1, cpfmax r2 1⟩, color⟩),
             (3, ⟨⟨p.x + r2, p.y - r2, 0, 1⟩, ⟨r2, -r2⟩, ⟨r1, cpfmax r2 1⟩, color⟩)]
          indexWrites := [(0, 0 + base), (1, 1 + base), (2, 2 + base), (3, 2 + base),
            (4, 3 + base), (5, 0 + base)] } := by
  rfl

/-- C4. Each emitter of fixed size stores what it requests from the renderer. `DrawCircle`
requests 2 triangles and 4 vertices and stores 4 vertices (offsets `0..3`, the corners
`(p.x ∓ r2, p.y ∓ r2)` of the square of half-side `r2` about `p`) and 6 indices; `DrawSegment`
requests 6 and 8 and stores 8 vertices and 18 indices; `PushChar` and
`ChipmunkDebugDrawApplyShadows` request 2 and 4 and store 4 vertices and 6 indices. In each
case the number of indices stored is three times the number of triangles requested, the
indices go to consecutive offsets from `0`, and each index is, before the batch offset is
added, less than the number of vertices. -/
theorem fixed_emitters_store_what_they_request (cpvnormalize : cpVect → cpVect) (g : GlyphData)
    (base : Nat) (p : pvec2) (r1 r2 : ℚ) (color : pvec4) (a b : cpVect) (character : Int)
    (x y : ℚ) :
    ((DrawCircle base p r1 r2 color).triangles = 2 ∧
      (DrawCircle base p r1 r2 color).vertexCount = 4 ∧
      (DrawCircle base p r1 r2 color).vertexWrites.length = 4 ∧
      (DrawCircle base p r1 r2 color).vertexWrites.map Prod.fst = List.range 4 ∧
      (DrawCircle base p r1 r2 color).vertexWrites.map (fun w => w.2.position)
        = [⟨p.x - r2, p.y - r2, 0, 1⟩, ⟨p.x - r2, p.y + r2, 0, 1⟩,
           ⟨p.x + r2, p.y + r2, 0, 1⟩, ⟨p.x + r2, p.y - r2, 0, 1⟩] ∧
      (DrawCircle base p r1 r2 color).indexWrites.length = 6 ∧
      ((DrawCircle base p r1 r2 color).indexWrites.length : Int)
        = 3 * (DrawCircle base p r1 r2 color).triangles ∧
      (DrawCircle base p r1 r2 color).indexWrites.map Prod.fst = List.range 6 ∧
      (DrawCircle base p r1 r2 color).indexWrites.map Prod.snd
        = [0, 1, 2, 2, 3, 0].map (fun r => r + base) ∧
      ∀ r ∈ [0, 1, 2, 2, 3, 0], r < 4) ∧
    ((DrawSegment cpvnormalize base a b r1 r2 color).triangles = 6 ∧
      (DrawSegment cpvnormalize base a b r1 r2 color).vertexCount = 8 ∧
      (DrawSegment cpvnormalize base a b r1 r2 color).vertexWrites.length = 8 ∧
      (DrawSegment cpvnormalize base a b r1 r2 color).vertexWrites.map Prod.fst
        = List.range 8 ∧
      (DrawSegment cpvnormalize base a b r1 r2 color).indexWrites.length = 18 ∧
      ((DrawSegment cpvnormalize base a b r1 r2 color).indexWrites.length : Int)
        = 3 * (DrawSegment cpvnormalize base a b r1 r2 color).triangles ∧
      (DrawSegment cpvnormalize base a b r1 r2 color).indexWrites.map Prod.fst
        = List.range 18 ∧
      (DrawSegment cpvnormalize base a b r1 r2 color).indexWrites.map Prod.snd
        = [0, 1, 2, 3, 1, 2, 3, 4, 2, 3, 4, 5, 6, 4, 5, 6, 7, 5].map (fun r => r + base) ∧
      ∀ r ∈ [0, 1, 2, 3, 1, 2, 3, 4, 2, 3, 4, 5, 6, 4, 5, 6, 7, 5], r < 8) ∧
    ((PushChar g base character x y color).1.triangles = 2 ∧
      (PushChar g base character x y color).1.vertexCount = 4 ∧
      (PushChar g base character x y color).1.vertexWrites.length = 4 ∧
      (PushChar g base character x y color).1.vertexWrites.map Prod.fst = List.range 4 ∧
      (PushChar g base character x y color).1.indexWrites.length = 6 ∧
      ((PushChar g base character x y color).1.indexWrites.length : Int)
        = 3 * (PushChar g base character x y color).1.triangles ∧
      (PushChar g base character x y color).1.indexWrites.map Prod.fst = List.range 6 ∧
      (PushChar g base character x y color).1.indexWrites.map Prod.snd
        = [0, 1, 2, 0, 2, 3].map (fun r => r + base) ∧
      ∀ r ∈ [0, 1, 2, 0, 2, 3], r < 4) ∧
    ((ChipmunkDebugDrawApplyShadows base).triangles = 2 ∧
      (ChipmunkDebugDrawApplyShadows base).vertexCount = 4 ∧
      (ChipmunkDebugDrawApplyShadows base).vertexWrites.length = 4 ∧
      (ChipmunkDebugDrawApplyShadows base).vertexWrites.map Prod.fst = List.range 4 ∧
      (ChipmunkDebugDrawApplyShadows base).indexWrites.length = 6 ∧
      ((ChipmunkDebugDrawApplyShadows base).indexWrites.length : Int)
        = 3 * (ChipmunkDebugDrawApplyShadows base).triangles ∧
      (ChipmunkDebugDrawApplyShadows base).indexWrites.map Prod.fst = List.range 6 ∧
      (ChipmunkDebugDrawApplyShadows base).indexWrites.map Prod.snd
        = [0, 1, 2, 2, 3, 0].map (fun r => r + base) ∧
      ∀ r ∈ [0, 1, 2, 2, 3, 0], r < 4) := by
  refine ⟨⟨rfl, rfl, rfl, rfl, ?_, rfl, rfl, rfl, rfl, by decide⟩,
    ⟨rfl, rfl, rfl, rfl, rfl, rfl, rfl, rfl, by decide⟩,
    ⟨rfl, rfl, rfl, rfl, rfl, rfl, rfl, rfl, by decide⟩,
    ⟨rfl, rfl, rfl, rfl, rfl, rfl, rfl, rfl, by decide⟩⟩
  rw [DrawCircle_eq]
  rfl

/-! ## C5: the keyboard switches demos -/

lemma KeyboardView_eq {σ : Type} (key : Nat) (s : DemoState σ) :
    ∃ (t : cpVect) (sc : ℚ), KeyboardView key s = { s with translate := t, scale := sc } := by
  unfold KeyboardView
  simp only
  split_ifs <;> exact ⟨_, _, rfl⟩

/-- The `int` stored in `index` is the integer `key - 'a'` when that difference is below
`2^31`, and is negative when `key < 'a'` or `key - 'a' ≥ 2^31`. -/
lemma keyIndex_range (key : Nat) (c : Int) (hkey : key < 2 ^ 32) (hc : c < 2 ^ 31) :
    (0 ≤ keyIndex key ∧ keyIndex key < c) ↔
      (0 ≤ (key : Int) - ('a').toNat ∧ (key : Int) - ('a').toNat < c) := by
  have ha : ('a').toNat = 97 := rfl
  unfold keyIndex
  simp only [ha]
  norm_num at hkey hc ⊢
  split_ifs <;> omega

lemma keyIndex_eq (key : Nat) (hkey : key < 2 ^ 32) (h : 0 ≤ keyIndex key) :
    keyIndex key = (key : Int) - ('a').toNat := by
  have ha : ('a').toNat = 97 := rfl
  unfold keyIndex at h ⊢
  simp only [ha] at h ⊢
  norm_num at hkey h ⊢
  split_ifs at h ⊢ <;> omega

/-- C5. For a key with `0 ≤ key - 'a' < demo_count`, `Keyboard` calls the current demo's
`destroyFunc` on the current space and then runs the demo `key - 'a'`: the calls it makes are,
in this order, that `destroyFunc`, `srand`, the new demo's `initFunc` and the window title;
afterwards `demo_index` is `key - 'a'`, `ChipmunkDemoTicks`, `ChipmunkDemoTime`, `Accumulator`
and the three `max_*` counters are `0`, `mouse_joint` is `NULL`, and `space` is what the new
demo's `initFunc` returned. For every other key `demo_index` is unchanged. (`key` is an
`unsigned int` and `demo_count` an `int`.) -/
theorem Keyboard_switches_demo {σ : Type} (demos : Int → ChipmunkDemo σ) (now : ℚ) (key : Nat)
    (s : DemoState σ) (hkey : key < 2 ^ 32) (hcount : s.demo_count < 2 ^ 31) :
    ((0 ≤ (key : Int) - ('a').toNat ∧ (key : Int) - ('a').toNat < s.demo_count) →
      (Keyboard demos now key s).calls = s.calls ++
        [Call.destroyFunc s.demo_index s.space, Call.srand 45073,
         Call.initFunc ((key : Int) - ('a').toNat),
         Call.glfwSetWindowTitle ((key : Int) - ('a').toNat)
           (demos ((key : Int) - ('a').toNat)).name] ∧
      (Keyboard demos now key s).demo_index = (key : Int) - ('a').toNat ∧
      (Keyboard demos now key s).ChipmunkDemoTicks = 0 ∧
      (Keyboard demos now key s).ChipmunkDemoTime = 0 ∧
      (Keyboard demos now key s).Accumulator = 0 ∧
      (Keyboard demos now key s).max_arbiters = 0 ∧
      (Keyboard demos now key s).max_points = 0 ∧
      (Keyboard demos now key s).max_constraints = 0 ∧
      (Keyboard demos now key s).mouse_joint = none ∧
      (Keyboard demos now key s).space = (demos ((key : Int) - ('a').toNat)).initFunc ()) ∧
    (¬ (0 ≤ (key : Int) - ('a').toNat ∧ (key : Int) - ('a').toNat < s.demo_count) →
      (Keyboard demos now key s).demo_index = s.demo_index) := by
  obtain ⟨t, sc, hview⟩ := KeyboardView_eq key (KeyboardDemo demos now key s)
  unfold Keyboard
  rw [hview]
  constructor
  · intro h
    have hidx := (keyIndex_range key s.demo_count hkey hcount).mpr h
    have heq := keyIndex_eq key hkey hidx.1
    unfold KeyboardDemo
    rw [if_pos hidx, heq]
    simp [RunDemo]
  · intro h
    have hidx : ¬ (0 ≤ keyIndex key ∧ keyIndex key < s.demo_count) :=
      fun h' => h ((keyIndex_range key s.demo_count hkey hcount).mp h')
    unfold KeyboardDemo
    rw [if_neg hidx]
    split_ifs <;> rfl

/-- C5 at the example table of two demos, in the state `RunDemo` leaves: the key `'b'` destroys
the space of demo 0 and runs demo 1; the key `'c'` (there is no third demo) leaves
`demo_index` at 0. -/
theorem Keyboard_switches_demo_witness :
    ((98 : Nat) < 2 ^ 32 ∧ exampleStart.demo_count < 2 ^ 31 ∧
      (0 ≤ ((98 : Nat) : Int) - ('a').toNat ∧
        ((98 : Nat) : Int) - ('a').toNat < exampleStart.demo_count)) ∧
    (Keyboard exampleDemos 5 98 exampleStart).calls = exampleStart.calls ++
      [Call.destroyFunc 0 0, Call.srand 45073, Call.initFunc 1,
       Call.glfwSetWindowTitle 1 "Example"] ∧
    (Keyboard exampleDemos 5 98 exampleStart).demo_index = 1 ∧
    (Keyboard exampleDemos 5 98 exampleStart).ChipmunkDemoTicks = 0 ∧
    ((99 : Nat) < 2 ^ 32 ∧
      ¬ (0 ≤ ((99 : Nat) : Int) - ('a').toNat ∧
        ((99 : Nat) : Int) - ('a').toNat < exampleStart.demo_count)) ∧
    (Keyboard exampleDemos 5 99 exampleStart).demo_index = exampleStart.demo_index := by
  have ha : ('a').toNat = 97 := rfl
  have h1 : (98 : Nat) < 2 ^ 32 := by norm_num
  have h1' : (99 : Nat) < 2 ^ 32 := by norm_num
  have h2 : exampleStart.demo_count < 2 ^ 31 := by
    norm_num [exampleStart, RunDemo, initialState]
  have h3 : 0 ≤ ((98 : Nat) : Int) - ('a').toNat ∧
      ((98 : Nat) : Int) - ('a').toNat < exampleStart.demo_count := by
    norm_num [exampleStart, RunDemo, initialState, ha]
  have h4 : ¬ (0 ≤ ((99 : Nat) : Int) - ('a').toNat ∧
      ((99 : Nat) : Int) - ('a').toNat < exampleStart.demo_count) := by
    norm_num [exampleStart, RunDemo, initialState, ha]
  have h := (Keyboard_switches_demo exampleDemos 5 98 exampleStart h1 h2).1 h3
  exact ⟨⟨h1, h2, h3⟩, h.1, h.2.1, h.2.2.1, ⟨h1', h4⟩,
    (Keyboard_switches_demo exampleDemos 5 99 exampleStart h1' h2).2 h4⟩

/-! ## C6: the return key -/

/-- The character codes that `Keyboard` compares `key` with. -/
lemma key_codes :
    ('a').toNat = 97 ∧ (' ').toNat = 32 ∧ ('`').toNat = 96 ∧ ('1').toNat = 49 ∧
    ('\\').toNat = 92 ∧ ('5').toNat = 53 ∧ ('4').toNat = 52 ∧ ('6').toNat = 54 ∧
    ('2').toNat = 50 ∧ ('8').toNat = 56 ∧ ('7').toNat = 55 ∧ ('9').toNat = 57 :=
  ⟨rfl, rfl, rfl, rfl, rfl, rfl, rfl, rfl, rfl, rfl, rfl, rfl⟩

lemma keyIndex_return : keyIndex 13 = -84 ∧ keyIndex 10 = -87 ∧ keyIndex 32 = -65 := by
  obtain ⟨ha, -⟩ := key_codes
  refine ⟨?_, ?_, ?_⟩ <;> norm_num [keyIndex, ha]

/-- C6 (the code at the return key). `Keyboard` called with carriage return (13) or newline (10)
changes nothing: no `destroyFunc` call, no `RunDemo`. The restart that the on-screen
instructions promise for return is what the space bar does: `Keyboard` called with `' '`
calls the current demo's `destroyFunc` on the space and runs the demo at the unchanged
`demo_index`, which resets `ChipmunkDemoTicks` and `ChipmunkDemoTime` to `0`. -/
theorem Keyboard_return_changes_nothing {σ : Type} (demos : Int → ChipmunkDemo σ) (now : ℚ)
    (s : DemoState σ) :
    Keyboard demos now 13 s = s ∧
    Keyboard demos now 10 s = s ∧
    (Keyboard demos now (' ').toNat s).calls = s.calls ++
      [Call.destroyFunc s.demo_index s.space, Call.srand 45073, Call.initFunc s.demo_index,
       Call.glfwSetWindowTitle s.demo_index (demos s.demo_index).name] ∧
    (Keyboard demos now (' ').toNat s).demo_index = s.demo_index ∧
    (Keyboard demos now (' ').toNat s).ChipmunkDemoTicks = 0 ∧
    (Keyboard demos now (' ').toNat s).ChipmunkDemoTime = 0 := by
  obtain ⟨h13, h10, h32⟩ := keyIndex_return
  obtain ⟨ha, hsp, hbq, h1, hbs, h5, h4, h6, h2, h8, h7, h9⟩ := key_codes
  refine ⟨?_, ?_, ?_⟩
  · unfold Keyboard KeyboardDemo KeyboardView
    rw [h13]
    simp only [ha, hsp, hbq, h1, hbs, h5, h4, h6, h2, h8, h7, h9]
    norm_num
  · unfold Keyboard KeyboardDemo KeyboardView
    rw [h10]
    simp only [ha, hsp, hbq, h1, hbs, h5, h4, h6, h2, h8, h7, h9]
    norm_num
  · obtain ⟨t, sc, hview⟩ := KeyboardView_eq (' ').toNat (KeyboardDemo demos now (' ').toNat s)
    unfold Keyboard
    rw [hview]
    unfold KeyboardDemo
    rw [hsp, h32]
    norm_num [RunDemo]

/-! ## C7: `ChipmunkDemoPrintString` stays inside its buffer -/

lemma remaining_of_lt (off : Nat) (h : off < PrintStringBufferSize) :
    remaining off = PrintStringBufferSize - off := by
  unfold remaining
  unfold PrintStringBufferSize SIZE_MOD at *
  omega

lemma remaining_lt_SIZE_MOD (off : Nat) : remaining off < SIZE_MOD := by
  unfold remaining SIZE_MOD
  omega

lemma vsnprintfBytes_length_le (n : Nat) (out : Option (List Nat)) (hn : 0 < n) :
    (vsnprintfBytes n out).length ≤ n := by
  unfold vsnprintfBytes
  cases out with
  | none => simp
  | some str =>
    simp only
    split
    · simp
    · simp only [List.length_append, List.length_take, List.length_singleton]
      omega

lemma storeAt_length (buf : List Nat) (off : Nat) (bytes : List Nat)
    (h : off + bytes.length ≤ buf.length) : (storeAt buf off bytes).length = buf.length := by
  unfold storeAt
  simp only [List.length_append, List.length_take, List.length_drop]
  omega

/-- A formatted output of `remaining` bytes or more is reported as at least `remaining`. -/
lemma would_write_ge (off : Nat) (str : List Nat) (h : remaining off ≤ str.length) :
    ¬ would_write (some str) < remaining off := by
  have hr := remaining_lt_SIZE_MOD off
  unfold would_write vsnprintfReturn
  unfold SIZE_MOD INT_MAX at *
  simp only
  split <;> omega

lemma would_write_none : would_write none = SIZE_MOD - 1 := by
  unfold would_write vsnprintfReturn SIZE_MOD
  simp only
  omega

lemma would_write_some (str : List Nat) (h : str.length < PrintStringBufferSize) :
    would_write (some str) = str.length := by
  unfold would_write vsnprintfReturn
  unfold SIZE_MOD INT_MAX PrintStringBufferSize at *
  simp only
  split <;> omega

lemma PrintString_of_null {σ : Type} (out : Option (List Nat)) (s : DemoState σ)
    (h : s.PrintStringCursor = none) : ChipmunkDemoPrintString out s = s := by
  unfold ChipmunkDemoPrintString
  rw [h]

lemma PrintString_inv {σ : Type} (out : Option (List Nat)) (s : DemoState σ) (h : PrintInv s) :
    PrintInv (ChipmunkDemoPrintString out s) := by
  obtain ⟨hlen, hcur⟩ := h
  unfold ChipmunkDemoPrintString
  split
  · exact ⟨hlen, hcur⟩
  · rename_i off hoff
    have hlt := hcur off hoff
    have hrem := remaining_of_lt off hlt
    have hb := vsnprintfBytes_length_le (remaining off) out (by omega)
    have hstore : (storeAt s.PrintStringBuffer off (vsnprintfBytes (remaining off) out)).length
        = PrintStringBufferSize := by
      rw [storeAt_length _ _ _ (by omega), hlen]
    simp only
    split
    · rename_i hw
      refine ⟨hstore, ?_⟩
      intro off' h'
      simp only [Option.some.injEq] at h'
      omega
    · exact ⟨hstore, by intro off' h'; simp at h'⟩

lemma Tick_inv {σ : Type} (demos : Int → ChipmunkDemo σ) (dt : ℚ) (s : DemoState σ)
    (h : PrintInv s) : PrintInv (Tick demos dt s) := by
  unfold Tick
  split
  · refine ⟨by simpa using h.1, ?_⟩
    intro off h'
    simp only [Option.some.injEq] at h'
    unfold PrintStringBufferSize
    omega
  · exact h

lemma Tick_iterate_inv {σ : Type} (demos : Int → ChipmunkDemo σ) (dt : ℚ) (k : Nat)
    (s : DemoState σ) (h : PrintInv s) : PrintInv ((Tick demos dt)^[k] s) := by
  induction k with
  | zero => exact h
  | succ k ih =>
    rw [Function.iterate_succ_apply']
    exact Tick_inv demos dt _ ih

lemma KeyboardDemo_print_frame {σ : Type} (demos : Int → ChipmunkDemo σ) (now : ℚ) (key : Nat)
    (s : DemoState σ) :
    (KeyboardDemo demos now key s).PrintStringCursor = s.PrintStringCursor ∧
    (KeyboardDemo demos now key s).PrintStringBuffer = s.PrintStringBuffer := by
  unfold KeyboardDemo
  split_ifs <;> simp [RunDemo]

lemma Keyboard_print_frame {σ : Type} (demos : Int → ChipmunkDemo σ) (now : ℚ) (key : Nat)
    (s : DemoState σ) :
    (Keyboard demos now key s).PrintStringCursor = s.PrintStringCursor ∧
    (Keyboard demos now key s).PrintStringBuffer = s.PrintStringBuffer := by
  obtain ⟨-, -, -, h1, h2⟩ := KeyboardView_frame key (KeyboardDemo demos now key s)
  obtain ⟨h3, h4⟩ := KeyboardDemo_print_frame demos now key s
  unfold Keyboard
  rw [h1, h2, h3, h4]
  exact ⟨rfl, rfl⟩

lemma PrintInv_Reachable {σ : Type} (demos : Int → ChipmunkDemo σ) (s0 s : DemoState σ)
    (h0 : PrintInv s0) (h : Reachable demos s0 s) : PrintInv s := by
  induction h with
  | start => exact h0
  | runDemo s now index _ ih => exact ih
  | update s s' fuel time _ hu ih =>
    obtain ⟨k, -, hs', -, -⟩ := Update_eq demos fuel time s s' hu
    rw [hs']
    exact Tick_iterate_inv demos _ k s ih
  | keyboard s now key _ ih =>
    obtain ⟨h1, h2⟩ := Keyboard_print_frame demos now key s
    exact ⟨by rw [h2]; exact ih.1, by rw [h1]; exact ih.2⟩
  | printString s out _ ih => exact PrintString_inv out s ih

lemma initialState_inv {σ : Type} (demo_count : Int) (nullSpace : σ) :
    PrintInv (initialState demo_count nullSpace) := by
  refine ⟨by simp [initialState], ?_⟩
  intro off h
  simp [initialState] at h

/-- C7. In every state the harness reaches from program start, `PrintStringBuffer` has its 8192
bytes and `PrintStringCursor` is `NULL` or points at an offset below 8192, in which case the
size handed to `vsnprintf` is 8192 minus that offset and the bytes `vsnprintf` stores, from the
cursor on, end inside the buffer. Whatever the state, a call whose output does not fit in the
remaining space (its length is at least `remaining`) or cannot be formatted leaves the cursor
`NULL`; with a `NULL` cursor any number of calls change nothing at all, and neither `Keyboard`
nor a `Tick` of a demo that is not running moves the cursor; a `Tick` of a running demo sets
the cursor to the start of the buffer and empties the string there. -/
theorem PrintString_stays_in_buffer {σ : Type} (demos : Int → ChipmunkDemo σ) (demo_count : Int)
    (nullSpace : σ) :
    (∀ s : DemoState σ, Reachable demos (initialState demo_count nullSpace) s →
      s.PrintStringBuffer.length = PrintStringBufferSize ∧
      (s.PrintStringCursor = none ∨
        ∃ off, s.PrintStringCursor = some off ∧ off < PrintStringBufferSize ∧
          remaining off = PrintStringBufferSize - off ∧
          ∀ out, off + (vsnprintfBytes (remaining off) out).length ≤ PrintStringBufferSize)) ∧
    (∀ (s : DemoState σ) (off : Nat) (str : List Nat), s.PrintStringCursor = some off →
      remaining off ≤ str.length →
      (ChipmunkDemoPrintString (some str) s).PrintStringCursor = none) ∧
    (∀ (s : DemoState σ) (off : Nat), s.PrintStringCursor = some off →
      (ChipmunkDemoPrintString none s).PrintStringCursor = none) ∧
    (∀ (s : DemoState σ) (outs : List (Option (List Nat))), s.PrintStringCursor = none →
      outs.foldl (fun t out => ChipmunkDemoPrintString out t) s = s) ∧
    (∀ (s : DemoState σ) (now : ℚ) (key : Nat),
      (Keyboard demos now key s).PrintStringCursor = s.PrintStringCursor ∧
      (Keyboard demos now key s).PrintStringBuffer = s.PrintStringBuffer) ∧
    (∀ (s : DemoState σ) (dt : ℚ), running s = false → Tick demos dt s = s) ∧
    (∀ (s : DemoState σ) (dt : ℚ), running s = true →
      (Tick demos dt s).PrintStringCursor = some 0 ∧
      (Tick demos dt s).PrintStringBuffer = s.PrintStringBuffer.set 0 0) := by
  refine ⟨?_, ?_, ?_, ?_, ?_, ?_, ?_⟩
  · intro s hs
    obtain ⟨hlen, hcur⟩ := PrintInv_Reachable demos _ s (initialState_inv demo_count nullSpace) hs
    refine ⟨hlen, ?_⟩
    cases hc : s.PrintStringCursor with
    | none => exact Or.inl rfl
    | some off =>
      have hlt := hcur off hc
      have hrem := remaining_of_lt off hlt
      refine Or.inr ⟨off, rfl, hlt, hrem, ?_⟩
      intro out
      have := vsnprintfBytes_length_le (remaining off) out (by omega)
      omega
  · intro s off str hc hfit
    have := would_write_ge off str hfit
    unfold ChipmunkDemoPrintString
    rw [hc]
    simp only
    rw [if_neg (fun h => this h.2)]
  · intro s off hc
    have h1 := would_write_none
    have h2 := remaining_lt_SIZE_MOD off
    unfold ChipmunkDemoPrintString
    rw [hc]
    simp only
    rw [if_neg (fun h => by omega)]
  · intro s outs hc
    induction outs with
    | nil => rfl
    | cons out outs ih =>
      rw [List.foldl_cons, PrintString_of_null out s hc]
      exact ih
  · intro s now key
    exact Keyboard_print_frame demos now key s
  · intro s dt h
    unfold running at h
    unfold Tick
    rw [h]
    simp
  · intro s dt h
    unfold running at h
    unfold Tick
    rw [h]
    simp

lemma exampleAfter_reachable : Reachable exampleDemos (initialState 2 0) exampleAfter :=
  Reachable.update _ _ 2 (1 / 20) (Reachable.runDemo _ 0 0 Reachable.start) exampleUpdate

lemma exampleAfter_cursor : exampleAfter.PrintStringCursor = some 0 := by
  norm_num [exampleAfter, Tick, exampleStart, RunDemo, initialState]

lemma remaining_zero : remaining 0 = 8192 := by
  rw [remaining_of_lt 0 (by norm_num [PrintStringBufferSize])]
  norm_num [PrintStringBufferSize]

/-- C7 at the example table: after the first `Update` the cursor is at the start of the
buffer; an output of 8192 bytes does not fit and leaves the cursor `NULL`, after which two
more calls change nothing. -/
theorem PrintString_stays_in_buffer_witness :
    Reachable exampleDemos (initialState 2 0) exampleAfter ∧
    exampleAfter.PrintStringBuffer.length = PrintStringBufferSize ∧
    (exampleAfter.PrintStringCursor = some 0 ∧
      remaining 0 ≤ (List.replicate 8192 65).length) ∧
    (ChipmunkDemoPrintString (some (List.replicate 8192 65)) exampleAfter).PrintStringCursor
      = none ∧
    [some [72, 105], none].foldl (fun t out => ChipmunkDemoPrintString out t)
        (ChipmunkDemoPrintString (some (List.replicate 8192 65)) exampleAfter)
      = ChipmunkDemoPrintString (some (List.replicate 8192 65)) exampleAfter := by
  have hover := (PrintString_stays_in_buffer exampleDemos 2 0).2.1 exampleAfter 0
    (List.replicate 8192 65) exampleAfter_cursor (by rw [remaining_zero, List.length_replicate])
  exact ⟨exampleAfter_reachable,
    ((PrintString_stays_in_buffer exampleDemos 2 0).1 exampleAfter exampleAfter_reachable).1,
    ⟨exampleAfter_cursor, by rw [remaining_zero, List.length_replicate]⟩,
    hover,
    (PrintString_stays_in_buffer exampleDemos 2 0).2.2.2.1 _ [some [72, 105], none] hover⟩

/-! ## C8: when `ChipmunkDemoPrintString` disables itself -/

/-- C8 (the code at an empty output). In the state after the first `Update` of the example
table the cursor is at the start of the buffer. A call whose formatted output is the empty
string has `would_write = 0`; the single byte `vsnprintf` stores (the terminating zero) fits in
the 8192 bytes that remain; there is no encoding error and no overflow. The call still sets
the cursor to `NULL`, because the test `would_write > 0` fails. -/
theorem PrintString_empty_output_disables :
    exampleAfter.PrintStringCursor = some 0 ∧
    would_write (some []) = 0 ∧
    remaining 0 = 8192 ∧
    vsnprintfBytes (remaining 0) (some []) = [0] ∧
    (ChipmunkDemoPrintString (some []) exampleAfter).PrintStringCursor = none := by
  have hw : would_write (some []) = 0 := would_write_some [] (by norm_num [PrintStringBufferSize])
  refine ⟨exampleAfter_cursor, hw, remaining_zero, ?_, ?_⟩
  · rw [remaining_zero]
    rfl
  · unfold ChipmunkDemoPrintString
    rw [exampleAfter_cursor]
    simp only
    rw [if_neg (fun h => by omega)]

/-! ## C9: one shadow quad for each edge -/

/-- What `k` passes through the loop of `ChipmunkDebugDrawShadow` store: pass `i` stores four
vertices that carry the segment from the previous transformed vertex to the transformed vertex
`i`, and the six indices of two triangles, offset by the running `batchOffset`. -/
lemma ShadowLoop_eq (t : cpTransform) (verts : List cpVect) (k : Nat) (m : Batch)
    (b : PhotonRenderBuffers) (a : cpVect) :
    (List.range k).foldl (ShadowLoopBody t verts) ⟨m, b, a⟩
    = ⟨{ m with
          vertexWrites := m.vertexWrites ++ (List.range k).flatMap (fun i =>
            let a' := if i = 0 then a else cpTransformPoint t (verts.getD (i - 1) (cpv 0 0))
            let b' := cpTransformPoint t (verts.getD i (cpv 0 0))
            [(b.vertexes + 4 * i, ⟨⟨0, 0, 2, 1⟩, ⟨a'.x, a'.y⟩, ⟨b'.x, b'.y⟩, PVEC4_CLEAR⟩),
             (b.vertexes + 4 * i + 1, ⟨⟨0, 1, 2, 1⟩, ⟨a'.x, a'.y⟩, ⟨b'.x, b'.y⟩, PVEC4_CLEAR⟩),
             (b.vertexes + 4 * i + 2, ⟨⟨1, 1, 2, 1⟩, ⟨a'.x, a'.y⟩, ⟨b'.x, b'.y⟩, PVEC4_CLEAR⟩),
             (b.vertexes + 4 * i + 3, ⟨⟨1, 0, 2, 1⟩, ⟨a'.x, a'.y⟩, ⟨b'.x, b'.y⟩, PVEC4_CLEAR⟩)])
          indexWrites := m.indexWrites ++ (List.range k).flatMap (fun i =>
            [(b.indexes + 6 * i, 0 + (b.batchOffset + 4 * i)),
             (b.indexes + 6 * i + 1, 1 + (b.batchOffset + 4 * i)),
             (b.indexes + 6 * i + 2, 2 + (b.batchOffset + 4 * i)),
             (b.indexes + 6 * i + 3, 2 + (b.batchOffset + 4 * i)),
             (b.indexes + 6 * i + 4, 3 + (b.batchOffset + 4 * i)),
             (b.indexes + 6 * i + 5, 0 + (b.batchOffset + 4 * i))]) },
       ⟨b.vertexes + 4 * k, b.indexes + 6 * k, b.batchOffset + 4 * k⟩,
       if k = 0 then a else cpTransformPoint t (verts.getD (k - 1) (cpv 0 0))⟩ := by
  induction k with
  | zero => simp
  | succ k ih =>
    rw [List.range_succ, List.foldl_append, ih]
    simp [ShadowLoopBody, PhotonVertexPush, PhotonIndexesCopy, List.range_succ,
      List.flatMap_append, Nat.add_assoc, Nat.mul_succ]

lemma flatMap_congr_mem {α β : Type} (l : List α) (f g : α → List β)
    (h : ∀ x ∈ l, f x = g x) : l.flatMap f = l.flatMap g := by
  unfold List.flatMap
  rw [List.map_congr_left h]

lemma range_quads (k : Nat) :
    (List.range k).flatMap (fun i => [4 * i, 4 * i + 1, 4 * i + 2, 4 * i + 3])
      = List.range (4 * k) := by
  induction k with
  | zero => simp
  | succ k ih =>
    rw [List.range_succ, List.flatMap_append, ih]
    simp [Nat.mul_succ, List.range_succ]

lemma range_sixes (k : Nat) :
    (List.range k).flatMap
        (fun i => [6 * i, 6 * i + 1, 6 * i + 2, 6 * i + 3, 6 * i + 4, 6 * i + 5])
      = List.range (6 * k) := by
  induction k with
  | zero => simp
  | succ k ih =>
    rw [List.range_succ, List.flatMap_append, ih]
    simp [Nat.mul_succ, List.range_succ]

/-- What `ChipmunkDebugDrawShadow` requests and stores, for a count `n ≥ 1`. -/
lemma ChipmunkDebugDrawShadow_eq (LightMatrixInv : cpTransform) (base : Nat)
    (transform : cpTransform) (n : Nat) (verts : List cpVect) (hn : 1 ≤ n) :
    ChipmunkDebugDrawShadow LightMatrixInv base transform (n : Int) verts
      = { triangles := 2 * (n : Int)
          vertexCount := 4 * (n : Int)
          state := RenderState.ShadowMaskState
          vertexWrites := (List.range n).flatMap (fun i =>
            let a := cpTransformPoint (cpTransformMult LightMatrixInv transform)
              (verts.getD ((i + n - 1) % n) (cpv 0 0))
            let b := cpTransformPoint (cpTransformMult LightMatrixInv transform)
              (verts.getD i (cpv 0 0))
            [(4 * i, ⟨⟨0, 0, 2, 1⟩, ⟨a.x, a.y⟩, ⟨b.x, b.y⟩, PVEC4_CLEAR⟩),
             (4 * i + 1, ⟨⟨0, 1, 2, 1⟩, ⟨a.x, a.y⟩, ⟨b.x, b.y⟩, PVEC4_CLEAR⟩),
             (4 * i + 2, ⟨⟨1, 1, 2, 1⟩, ⟨a.x, a.y⟩, ⟨b.x, b.y⟩, PVEC4_CLEAR⟩),
             (4 * i + 3, ⟨⟨1, 0, 2, 1⟩, ⟨a.x, a.y⟩, ⟨b.x, b.y⟩, PVEC4_CLEAR⟩)])
          indexWrites := (List.range n).flatMap (fun i =>
            [(6 * i, 0 + (base + 4 * i)), (6 * i + 1, 1 + (base + 4 * i)),
             (6 * i + 2, 2 + (base + 4 * i)), (6 * i + 3, 2 + (base + 4 * i)),
             (6 * i + 4, 3 + (base + 4 * i)), (6 * i + 5, 0 + (base + 4 * i))]) } := by
  have h1 : ((n : Int) - 1).toNat = n - 1 := by omega
  unfold ChipmunkDebugDrawShadow PhotonRendererEnqueueTriangles
  simp only [Int.toNat_ofNat, h1]
  rw [ShadowLoop_eq]
  simp only [List.nil_append, Nat.zero_add, Batch.mk.injEq, true_and]
  refine ⟨?_, trivial⟩
  apply flatMap_congr_mem
  intro i hi
  have hi' : i < n := List.mem_range.mp hi
  by_cases h0 : i = 0
  · subst h0
    have : (0 + n - 1) % n = n - 1 := by
      rw [Nat.zero_add]; exact Nat.mod_eq_of_lt (by omega)
    simp [this]
  · have : (i + n - 1) % n = i - 1 := by
      have e : i + n - 1 = (i - 1) + n := by omega
      rw [e, Nat.add_mod_right]
      exact Nat.mod_eq_of_lt (by omega)
    simp [this, h0]

/-- C9. For every `n ≥ 1` and every array `verts` of `n` vertices, `ChipmunkDebugDrawShadow`
requests `2n` triangles and `4n` vertices and stores exactly `4n` vertices, at the offsets
`0, …, 4n - 1` in this order, and exactly `6n` indices, at the offsets `0, …, 6n - 1` in this
order. With `T` the transform `LightMatrixInv * transform`, the four vertices of quad `i` are
the corners `(0,0)`, `(0,1)`, `(1,1)`, `(1,0)` and each carries the segment from
`T verts[(i - 1) mod n]` to `T verts[i]`, so the `n` quads carry the `n` cyclic edges, one
each. The indices of quad `i` are `0, 1, 2, 2, 3, 0` plus `4i` plus the batch offset, every one
of them less than `4n` before the batch offset is added. -/
theorem ChipmunkDebugDrawShadow_emits (LightMatrixInv : cpTransform) (base : Nat)
    (transform : cpTransform) (n : Nat) (verts : List cpVect) (hn : 1 ≤ n)
    (hlen : verts.length = n) :
    (ChipmunkDebugDrawShadow LightMatrixInv base transform (n : Int) verts).triangles
      = 2 * (n : Int) ∧
    (ChipmunkDebugDrawShadow LightMatrixInv base transform (n : Int) verts).vertexCount
      = 4 * (n : Int) ∧
    (ChipmunkDebugDrawShadow LightMatrixInv base transform (n : Int) verts).vertexWrites.length
      = 4 * n ∧
    (ChipmunkDebugDrawShadow LightMatrixInv base transform (n : Int) verts).vertexWrites.map
        Prod.fst = List.range (4 * n) ∧
    (ChipmunkDebugDrawShadow LightMatrixInv base transform (n : Int) verts).vertexWrites.map
        Prod.snd
      = (List.range n).flatMap (fun i =>
          let a := cpTransformPoint (cpTransformMult LightMatrixInv transform)
            (verts.getD ((i + n - 1) % n) (cpv 0 0))
          let b := cpTransformPoint (cpTransformMult LightMatrixInv transform)
            (verts.getD i (cpv 0 0))
          [⟨⟨0, 0, 2, 1⟩, ⟨a.x, a.y⟩, ⟨b.x, b.y⟩, PVEC4_CLEAR⟩,
           ⟨⟨0, 1, 2, 1⟩, ⟨a.x, a.y⟩, ⟨b.x, b.y⟩, PVEC4_CLEAR⟩,
           ⟨⟨1, 1, 2, 1⟩, ⟨a.x, a.y⟩, ⟨b.x, b.y⟩, PVEC4_CLEAR⟩,
           ⟨⟨1, 0, 2, 1⟩, ⟨a.x, a.y⟩, ⟨b.x, b.y⟩, PVEC4_CLEAR⟩]) ∧
    (∀ i, i < n → (i + n - 1) % n < verts.length ∧ i < verts.length) ∧
    (ChipmunkDebugDrawShadow LightMatrixInv base transform (n : Int) verts).indexWrites.length
      = 6 * n ∧
    (ChipmunkDebugDrawShadow LightMatrixInv base transform (n : Int) verts).indexWrites.map
        Prod.fst = List.range (6 * n) ∧
    (ChipmunkDebugDrawShadow LightMatrixInv base transform (n : Int) verts).indexWrites.map
        Prod.snd
      = (List.range n).flatMap (fun i =>
          [0, 1, 2, 2, 3, 0].map (fun r => r + 4 * i + base)) ∧
    (∀ w ∈ (ChipmunkDebugDrawShadow LightMatrixInv base transform (n : Int) verts).indexWrites,
      ∃ r : Nat, r < 4 * n ∧ w.2 = r + base) := by
  rw [ChipmunkDebugDrawShadow_eq LightMatrixInv base transform n verts hn]
  have hv : List.map Prod.fst ((List.range n).flatMap (fun i =>
      let a := cpTransformPoint (cpTransformMult LightMatrixInv transform)
        (verts.getD ((i + n - 1) % n) (cpv 0 0))
      let b := cpTransformPoint (cpTransformMult LightMatrixInv transform)
        (verts.getD i (cpv 0 0))
      [(4 * i, (⟨⟨0, 0, 2, 1⟩, ⟨a.x, a.y⟩, ⟨b.x, b.y⟩, PVEC4_CLEAR⟩ : PhotonVertex)),
       (4 * i + 1, ⟨⟨0, 1, 2, 1⟩, ⟨a.x, a.y⟩, ⟨b.x, b.y⟩, PVEC4_CLEAR⟩),
       (4 * i + 2, ⟨⟨1, 1, 2, 1⟩, ⟨a.x, a.y⟩, ⟨b.x, b.y⟩, PVEC4_CLEAR⟩),
       (4 * i + 3, ⟨⟨1, 0, 2, 1⟩, ⟨a.x, a.y⟩, ⟨b.x, b.y⟩, PVEC4_CLEAR⟩)]))
      = List.range (4 * n) := by
    rw [← range_quads]
    simp [List.map_flatMap]
  have hi : List.map Prod.fst ((List.range n).flatMap (fun i =>
      [(6 * i, 0 + (base + 4 * i)), (6 * i + 1, 1 + (base + 4 * i)),
       (6 * i + 2, 2 + (base + 4 * i)), (6 * i + 3, 2 + (base + 4 * i)),
       (6 * i + 4, 3 + (base + 4 * i)), (6 * i + 5, 0 + (base + 4 * i))]))
      = List.range (6 * n) := by
    rw [← range_sixes]
    simp [List.map_flatMap]
  refine ⟨rfl, rfl, ?_, hv, ?_, ?_, ?_, hi, ?_, ?_⟩
  · have := congrArg List.length hv
    simpa using this
  · simp [List.map_flatMap]
  · intro i hi'
    have : (i + n - 1) % n < n := Nat.mod_lt _ (by omega)
    omega
  · have := congrArg List.length hi
    simpa using this
  · simp only [List.map_flatMap]
    apply flatMap_congr_mem
    intro i _
    simp
    omega
  · intro w hw
    simp only [List.mem_flatMap, List.mem_range] at hw
    obtain ⟨i, hi', hw⟩ := hw
    simp at hw
    rcases hw with rfl | rfl | rfl | rfl | rfl | rfl
    · exact ⟨4 * i, by omega, by simp; omega⟩
    · exact ⟨4 * i + 1, by omega, by simp; omega⟩
    · exact ⟨4 * i + 2, by omega, by simp; omega⟩
    · exact ⟨4 * i + 2, by omega, by simp; omega⟩
    · exact ⟨4 * i + 3, by omega, by simp; omega⟩
    · exact ⟨4 * i, by omega, by simp; omega⟩

/-- C9 at a triangle, with identity transforms and batch offset `5`: twelve vertices, and the
eighteen indices of three quads; the quads carry the edges `v2 → v0`, `v0 → v1`, `v1 → v2`. -/
theorem ChipmunkDebugDrawShadow_emits_witness :
    (1 ≤ 3 ∧ exampleTriangle.length = 3) ∧
    (ChipmunkDebugDrawShadow cpTransformIdentity 5 cpTransformIdentity (3 : Nat)
      exampleTriangle).vertexWrites.length = 12 ∧
    (ChipmunkDebugDrawShadow cpTransformIdentity 5 cpTransformIdentity (3 : Nat)
      exampleTriangle).indexWrites.map Prod.snd
      = [5, 6, 7, 7, 8, 5, 9, 10, 11, 11, 12, 9, 13, 14, 15, 15, 16, 13] ∧
    (ChipmunkDebugDrawShadow cpTransformIdentity 5 cpTransformIdentity (3 : Nat)
      exampleTriangle).vertexWrites.map (fun w => (w.2.uv1, w.2.uv2))
      = [(⟨0, 3⟩, ⟨0, 0⟩), (⟨0, 3⟩, ⟨0, 0⟩), (⟨0, 3⟩, ⟨0, 0⟩), (⟨0, 3⟩, ⟨0, 0⟩),
         (⟨0, 0⟩, ⟨4, 0⟩), (⟨0, 0⟩, ⟨4, 0⟩), (⟨0, 0⟩, ⟨4, 0⟩), (⟨0, 0⟩, ⟨4, 0⟩),
         (⟨4, 0⟩, ⟨0, 3⟩), (⟨4, 0⟩, ⟨0, 3⟩), (⟨4, 0⟩, ⟨0, 3⟩), (⟨4, 0⟩, ⟨0, 3⟩)] := by
  have h := ChipmunkDebugDrawShadow_emits cpTransformIdentity 5 cpTransformIdentity 3
    exampleTriangle (by decide) rfl
  refine ⟨⟨by decide, rfl⟩, h.2.2.1, h.2.2.2.2.2.2.2.2.1, ?_⟩
  have h5 := congrArg (List.map (fun v : PhotonVertex => (v.uv1, v.uv2))) h.2.2.2.2.1
  rw [List.map_map] at h5
  rw [show (fun w : Nat × PhotonVertex => (w.2.uv1, w.2.uv2))
    = (fun v : PhotonVertex => (v.uv1, v.uv2)) ∘ Prod.snd from rfl, h5]
  norm_num [List.range_succ, List.flatMap, exampleTriangle, cpTransformPoint, cpTransformMult,
    cpTransformIdentity, cpv]

/-! ## C10: how the two penumbra factors are combined -/

lemma penumbraValue_mid :
    penumbraValue ⟨0, 1, 0, 1⟩ = (1 / 2, 1 / 2) := by
  norm_num [penumbraValue, penumbraP, glsl_clamp, glsl_mix, glsl_step]

/-- C10 as stated fails: for the penumbra pairs `(0, 1)` and `(0, 1)`, the middle of both
penumbras, both per-edge values are `1/2`; their product is `1/4`, the occlusion is `0`. -/
theorem occlusion_is_not_the_product :
    penumbraValue ⟨0, 1, 0, 1⟩ = (1 / 2, 1 / 2) ∧
    occlusion ⟨0, 1, 0, 1⟩ = 0 ∧
    (penumbraValue ⟨0, 1, 0, 1⟩).1 * (penumbraValue ⟨0, 1, 0, 1⟩).2 = 1 / 4 ∧
    occlusion ⟨0, 1, 0, 1⟩
      ≠ (penumbraValue ⟨0, 1, 0, 1⟩).1 * (penumbraValue ⟨0, 1, 0, 1⟩).2 := by
  have h := penumbraValue_mid
  refine ⟨h, ?_, ?_, ?_⟩
  · unfold occlusion; rw [h]; norm_num
  · rw [h]; norm_num
  · unfold occlusion; rw [h]; norm_num

/-- C10, amended. The two per-edge values are combined additively: the occlusion is
`value[0] + value[1] - 1`, and this is the factor by which the fragment stage scales
`overshadow * v_Opacity * attenuation` in each component of its output, when the fragment is
not discarded. The occlusion is the product `value[0] * value[1]` exactly when one of the two
values is `1`. -/
theorem occlusion_is_additive (v_Penumbras : pvec4) :
    occlusion v_Penumbras
      = (penumbraValue v_Penumbras).1 + (penumbraValue v_Penumbras).2 - 1 ∧
    (occlusion v_Penumbras = (penumbraValue v_Penumbras).1 * (penumbraValue v_Penumbras).2 ↔
      ((penumbraValue v_Penumbras).1 = 1 ∨ (penumbraValue v_Penumbras).2 = 1)) ∧
    (∀ v_Opacity v_Edges_z attenuation : ℚ, v_Edges_z < 0 →
      ShadowMaskFShader v_Opacity v_Penumbras v_Edges_z attenuation
        = some ⟨overshadow * v_Opacity * attenuation
                  * ((penumbraValue v_Penumbras).1 + (penumbraValue v_Penumbras).2 - 1),
                overshadow * v_Opacity * attenuation
                  * ((penumbraValue v_Penumbras).1 + (penumbraValue v_Penumbras).2 - 1),
                overshadow * v_Opacity * attenuation
                  * ((penumbraValue v_Penumbras).1 + (penumbraValue v_Penumbras).2 - 1),
                overshadow * v_Opacity * attenuation
                  * ((penumbraValue v_Penumbras).1 + (penumbraValue v_Penumbras).2 - 1)⟩) := by
  refine ⟨rfl, ?_, ?_⟩
  · unfold occlusion
    simp only
    constructor
    · intro h
      have h' : ((penumbraValue v_Penumbras).1 - 1) * ((penumbraValue v_Penumbras).2 - 1) = 0 := by
        linear_combination -h
      rcases mul_eq_zero.mp h' with h1 | h2
      · left; linarith
      · right; linarith
    · rintro (h | h) <;> rw [h] <;> ring
  · intro v_Opacity v_Edges_z attenuation hz
    unfold ShadowMaskFShader
    rw [if_neg (not_le.mpr hz)]
    rfl

/-- C10, amended, at the middle of both penumbras: the two values `1/2` and `1/2` give the
occlusion `0`, and a fragment with `v_Edges.z = -1`, opacity 1 and attenuation 1 comes out
as zero. -/
theorem occlusion_is_additive_witness :
    ((-1 : ℚ) < 0) ∧
    ShadowMaskFShader 1 ⟨0, 1, 0, 1⟩ (-1) 1
      = some ⟨overshadow * 1 * 1
                * ((penumbraValue ⟨0, 1, 0, 1⟩).1 + (penumbraValue ⟨0, 1, 0, 1⟩).2 - 1),
              overshadow * 1 * 1
                * ((penumbraValue ⟨0, 1, 0, 1⟩).1 + (penumbraValue ⟨0, 1, 0, 1⟩).2 - 1),
              overshadow * 1 * 1
                * ((penumbraValue ⟨0, 1, 0, 1⟩).1 + (penumbraValue ⟨0, 1, 0, 1⟩).2 - 1),
              overshadow * 1 * 1
                * ((penumbraValue ⟨0, 1, 0, 1⟩).1 + (penumbraValue ⟨0, 1, 0, 1⟩).2 - 1)⟩ ∧
    overshadow * 1 * 1
      * ((penumbraValue ⟨0, 1, 0, 1⟩).1 + (penumbraValue ⟨0, 1, 0, 1⟩).2 - 1) = 0 :=
  ⟨by norm_num,
   (occlusion_is_additive ⟨0, 1, 0, 1⟩).2.2 1 (-1) 1 (by norm_num),
   by rw [penumbraValue_mid]; norm_num⟩

/-! ## C11: the penumbra ratio and the per-edge factor -/

lemma penumbraRatio_mem {K : Type} [LinearOrderedField K] (x y : K) :
    -1 ≤ penumbraRatio x y ∧ penumbraRatio x y ≤ 1 := by
  unfold penumbraRatio
  refine ⟨le_min (le_max_right _ _) (by norm_num), min_le_right _ _⟩

lemma penumbraFactor_mono {K : Type} [LinearOrderedField K] (p q : K) (hp : -1 ≤ p)
    (hpq : p ≤ q) (hq : q ≤ 1) : penumbraFactor p ≤ penumbraFactor q := by
  unfold penumbraFactor
  have h1 : 0 ≤ (q - p) := sub_nonneg.mpr hpq
  have hp1 : p ≤ 1 := le_trans hpq hq
  have hq1 : -1 ≤ q := le_trans hp hpq
  have h2 : p * p ≤ 1 := by nlinarith
  have h3 : q * q ≤ 1 := by nlinarith
  have h4 : p * q ≤ 1 := by nlinarith
  have h5 : 0 ≤ (q - p) * (3 - (p * p + p * q + q * q)) :=
    mul_nonneg h1 (by linarith)
  nlinarith

lemma penumbraFactor_ends {K : Type} [LinearOrderedField K] :
    penumbraFactor (-1 : K) = 0 ∧ penumbraFactor (1 : K) = 1 := by
  unfold penumbraFactor
  constructor <;> norm_num

lemma penumbraEdgeValue_pos {K : Type} [LinearOrderedField K] (x y : K) (hy : 0 < y) :
    penumbraEdgeValue x y = penumbraFactor (penumbraRatio x y) := by
  unfold penumbraEdgeValue
  rw [if_pos hy]
  ring

lemma penumbraEdgeValue_nonpos {K : Type} [LinearOrderedField K] (x y : K) (hy : y ≤ 0) :
    penumbraEdgeValue x y = 1 := by
  unfold penumbraEdgeValue
  rw [if_neg (not_lt.mpr hy)]
  ring

lemma penumbraValue_eq (v_Penumbras : pvec4) :
    penumbraP v_Penumbras
      = (penumbraRatio v_Penumbras.x v_Penumbras.y, penumbraRatio v_Penumbras.z v_Penumbras.w) ∧
    penumbraValue v_Penumbras
      = (penumbraEdgeValue v_Penumbras.x v_Penumbras.y,
         penumbraEdgeValue v_Penumbras.z v_Penumbras.w) := by
  refine ⟨rfl, ?_⟩
  unfold penumbraValue penumbraEdgeValue penumbraFactor penumbraP glsl_mix glsl_step glsl_clamp
    penumbraRatio
  rfl

/-- C11. In exact arithmetic (any ordered field `K`, such as the reals), for every penumbra
pair `(x, y)` with `y > 0` the ratio `p = clamp(x/y, -1, 1)` lies in `[-1, 1]` and the per-edge
value the shader computes is the factor `p(3 - p²)/4 + 1/2`, which lies in `[0, 1]`; the factor
is `0` at `p = -1`, `1` at `p = 1`, and non-decreasing on `[-1, 1]`; for `y < 0` the per-edge
value is exactly `1`. The pairs `penumbraP` and `penumbraValue` of the fragment stage are these
ratio and value, component by component. -/
theorem penumbra_factor_smooth (K : Type) [LinearOrderedField K] :
    (∀ x y : K, 0 < y →
      -1 ≤ penumbraRatio x y ∧ penumbraRatio x y ≤ 1 ∧
      penumbraEdgeValue x y = penumbraFactor (penumbraRatio x y) ∧
      0 ≤ penumbraEdgeValue x y ∧ penumbraEdgeValue x y ≤ 1) ∧
    penumbraFactor (-1 : K) = 0 ∧
    penumbraFactor (1 : K) = 1 ∧
    (∀ p q : K, -1 ≤ p → p ≤ q → q ≤ 1 → penumbraFactor p ≤ penumbraFactor q) ∧
    (∀ x y : K, y < 0 → penumbraEdgeValue x y = 1) ∧
    (∀ v_Penumbras : pvec4,
      penumbraP v_Penumbras
        = (penumbraRatio v_Penumbras.x v_Penumbras.y,
           penumbraRatio v_Penumbras.z v_Penumbras.w) ∧
      penumbraValue v_Penumbras
        = (penumbraEdgeValue v_Penumbras.x v_Penumbras.y,
           penumbraEdgeValue v_Penumbras.z v_Penumbras.w)) := by
  refine ⟨?_, penumbraFactor_ends.1, penumbraFactor_ends.2, penumbraFactor_mono, ?_,
    penumbraValue_eq⟩
  · intro x y hy
    obtain ⟨h1, h2⟩ := penumbraRatio_mem x y
    refine ⟨h1, h2, penumbraEdgeValue_pos x y hy, ?_, ?_⟩
    · rw [penumbraEdgeValue_pos x y hy, ← (penumbraFactor_ends (K := K)).1]
      exact penumbraFactor_mono _ _ (le_refl _) h1 h2
    · rw [penumbraEdgeValue_pos x y hy, ← (penumbraFactor_ends (K := K)).2]
      exact penumbraFactor_mono _ _ h1 h2 (le_refl _)
  · intro x y hy
    exact penumbraEdgeValue_nonpos x y (le_of_lt hy)

/-- C11 over the rationals at the pair `(1, 2)`: the ratio is `1/2` and the value is the factor
at `1/2`, between `0` and `1`; at the pair `(1, -2)` the value is `1`; the factor does not fall
from `-1/2` to `1/2`. -/
theorem penumbra_factor_smooth_witness :
    ((0 : ℚ) < 2 ∧ penumbraRatio (1 : ℚ) 2 = 1 / 2 ∧
      penumbraEdgeValue (1 : ℚ) 2 = penumbraFactor (penumbraRatio (1 : ℚ) 2) ∧
      0 ≤ penumbraEdgeValue (1 : ℚ) 2 ∧ penumbraEdgeValue (1 : ℚ) 2 ≤ 1) ∧
    (((-1 : ℚ) ≤ -1 / 2 ∧ (-1 / 2 : ℚ) ≤ 1 / 2 ∧ (1 / 2 : ℚ) ≤ 1) ∧
      penumbraFactor (-1 / 2 : ℚ) ≤ penumbraFactor (1 / 2 : ℚ)) ∧
    ((-2 : ℚ) < 0 ∧ penumbraEdgeValue (1 : ℚ) (-2) = 1) := by
  have h := (penumbra_factor_smooth ℚ).1 1 2 (by norm_num)
  refine ⟨⟨by norm_num, by norm_num [penumbraRatio], h.2.2.1, h.2.2.2.1, h.2.2.2.2⟩,
    ⟨⟨by norm_num, by norm_num, by norm_num⟩,
      (penumbra_factor_smooth ℚ).2.2.2.1 (-1 / 2) (1 / 2) (by norm_num) (by norm_num)
        (by norm_num)⟩,
    ⟨by norm_num, (penumbra_factor_smooth ℚ).2.2.2.2.1 1 (-2) (by norm_num)⟩⟩

/-! ## C12: the blend mode of the shadow mask -/

/-- C12. The blend mode `ShadowsBegin` installs in `ShadowMaskState` is `ShadowMaskBlend`:
alpha is added with both factors one, colour is added with source factor zero and destination
factor one. For every source and destination value the blended alpha is the source alpha plus
the destination alpha, and the three colour channels are those of the destination. -/
theorem ShadowMaskBlend_adds_alpha (mvp : cpTransform) (d : DrawState) (src dst : pvec4) :
    ((ShadowsBegin mvp d).ShadowMaskState.map (fun st => st.blendMode) = some ShadowMaskBlend) ∧
    (ShadowMaskBlend.alphaOp = PhotonBlendOp.PhotonBlendOpAdd ∧
      ShadowMaskBlend.alphaSrcFactor = PhotonBlendFactor.PhotonBlendFactorOne ∧
      ShadowMaskBlend.alphaDstFactor = PhotonBlendFactor.PhotonBlendFactorOne ∧
      ShadowMaskBlend.colorOp = PhotonBlendOp.PhotonBlendOpAdd ∧
      ShadowMaskBlend.colorSrcFactor = PhotonBlendFactor.PhotonBlendFactorZero ∧
      ShadowMaskBlend.colorDstFactor = PhotonBlendFactor.PhotonBlendFactorOne) ∧
    (blend ShadowMaskBlend src dst).w = src.w + dst.w ∧
    (blend ShadowMaskBlend src dst).x = dst.x ∧
    (blend ShadowMaskBlend src dst).y = dst.y ∧
    (blend ShadowMaskBlend src dst).z = dst.z := by
  refine ⟨rfl, ⟨rfl, rfl, rfl, rfl, rfl, rfl⟩, ?_, ?_, ?_, ?_⟩ <;>
    simp [blend, ShadowMaskBlend, blendChannel, blendFactorValue]

/-! ## C13: the colour the vertex stage of the primitives hands on -/

/-- C13 (the code at a colour that is not opaque). The vertex stage of the primitives
multiplies all four components of the vertex colour by its alpha, so the colour it hands on is
`(r*a, g*a, b*a, a*a)`. For the colour of a sensor shape, `(1, 1, 1, 1/10)`, that is
`(1/10, 1/10, 1/10, 1/100)`; the pre-multiplied form of the colour is
`(1/10, 1/10, 1/10, 1/10)`. -/
theorem PrimitiveVShader_squares_alpha :
    (∀ (u_MVP : List ℚ) (vertex : PhotonVertex),
      (PrimitiveVShader u_MVP vertex).PhotonFragColor
        = ⟨vertex.color.x * vertex.color.w, vertex.color.y * vertex.color.w,
           vertex.color.z * vertex.color.w, vertex.color.w * vertex.color.w⟩) ∧
    (PrimitiveVShader (transformMatrix cpTransformIdentity)
        ⟨⟨0, 0, 0, 1⟩, PVEC2_0, ⟨1, 1⟩, MakeColor sensorColor⟩).PhotonFragColor
      = ⟨1 / 10, 1 / 10, 1 / 10, 1 / 100⟩ ∧
    (PrimitiveVShader (transformMatrix cpTransformIdentity)
        ⟨⟨0, 0, 0, 1⟩, PVEC2_0, ⟨1, 1⟩, MakeColor sensorColor⟩).PhotonFragColor
      ≠ ⟨1 * (1 / 10), 1 * (1 / 10), 1 * (1 / 10), 1 / 10⟩ := by
  refine ⟨fun _ _ => rfl, ?_, ?_⟩
  · norm_num [PrimitiveVShader, pvec4Scale, MakeColor, sensorColor]
  · norm_num [PrimitiveVShader, pvec4Scale, MakeColor, sensorColor]

/-! ## C14: the uploaded uniform data and the uniform blocks -/

lemma std140_PhotonGlobals :
    std140Offsets 0 PhotonGlobals
      = [("u_P", 0, GlslType.mat4), ("u_MVP", 16, GlslType.mat4),
         ("u_OutlineColor", 32, GlslType.vec4), ("u_OutlineWidth", 36, GlslType.float)] := by
  rfl

lemma std140_PhotonLocals :
    std140Offsets 0 PhotonLocals
      = [("u_LightMatrix", 0, GlslType.mat4), ("u_MVP", 16, GlslType.mat4),
         ("u_Radius", 32, GlslType.float)] := by
  rfl

lemma readUniform_globalsData (p mvp : cpTransform) (c : pvec4) (w : ℚ) :
    readUniform PhotonGlobals (globalsData p mvp c w) "u_P" = transformMatrix p ∧
    readUniform PhotonGlobals (globalsData p mvp c w) "u_MVP" = transformMatrix mvp ∧
    readUniform PhotonGlobals (globalsData p mvp c w) "u_OutlineColor" = [c.x, c.y, c.z, c.w] ∧
    readUniform PhotonGlobals (globalsData p mvp c w) "u_OutlineWidth" = [w] := by
  unfold readUniform
  rw [std140_PhotonGlobals]
  refine ⟨?_, ?_, ?_, ?_⟩ <;> rfl

lemma readUniform_shadowMaskLocals (l lmvp : cpTransform) (r : ℚ) :
    readUniform PhotonLocals (shadowMaskLocals l lmvp r) "u_LightMatrix" = transformMatrix l ∧
    readUniform PhotonLocals (shadowMaskLocals l lmvp r) "u_MVP" = transformMatrix lmvp ∧
    readUniform PhotonLocals (shadowMaskLocals l lmvp r) "u_Radius" = [r] := by
  unfold readUniform
  rw [std140_PhotonLocals]
  refine ⟨?_, ?_, ?_⟩ <;> rfl

lemma mat4MulVec4_transformMatrix (t : cpTransform) (x y : ℚ) :
    mat4MulVec4 (transformMatrix t) ⟨x, y, 0, 1⟩
      = ⟨t.a * x + t.c * y + t.tx, t.b * x + t.d * y + t.ty, 0, 1⟩ := by
  simp [mat4MulVec4, transformMatrix]

lemma ChipmunkDebugDrawBegin_fields (waits : Nat) (width height : Int) (d : DrawState) :
    (ChipmunkDebugDrawBegin waits width height d).globals
      = globalsData d.ChipmunkDebugDrawProjection
          (cpTransformMult d.ChipmunkDebugDrawProjection
            (cpTransformInverse d.ChipmunkDebugDrawCamera))
          (MakeColor d.ChipmunkDebugDrawOutlineColor) d.ChipmunkDebugDrawScaleFactor ∧
    (ChipmunkDebugDrawBegin waits width height d).ShadowMaskState
      = some { blendMode := ShadowMaskBlend
               locals := shadowMaskLocals
                 (cpTransformTranslate d.ChipmunkDebugDrawLightPosition)
                 (cpTransformMult
                   (cpTransformMult d.ChipmunkDebugDrawProjection
                     (cpTransformInverse d.ChipmunkDebugDrawCamera))
                   (cpTransformTranslate d.ChipmunkDebugDrawLightPosition))
                 d.ChipmunkDebugDrawLightRadius } ∧
    (ChipmunkDebugDrawBegin waits width height d).LightMatrixInv
      = cpTransformInverse (cpTransformTranslate d.ChipmunkDebugDrawLightPosition) ∧
    (ChipmunkDebugDrawBegin waits width height d).ChipmunkDebugDrawLightPosition
      = d.ChipmunkDebugDrawLightPosition :=
  ⟨rfl, rfl, rfl, rfl⟩

/-- C14. Under `layout(std140)` the members of `PhotonGlobals` lie at the float offsets
0 (`u_P`), 16 (`u_MVP`), 32 (`u_OutlineColor`), 36 (`u_OutlineWidth`) and those of
`PhotonLocals` at 0 (`u_LightMatrix`), 16 (`u_MVP`), 32 (`u_Radius`). From the floats
`ChipmunkDebugDrawBegin` hands to `PhotonRendererSetGlobals` the shaders read the matrix of the
projection as `u_P`, the matrix of `projection * inverse(camera)` as `u_MVP`, the outline colour
as `u_OutlineColor` and `ChipmunkDebugDrawScaleFactor` as `u_OutlineWidth`; from the floats
`ShadowsBegin` hands to `PhotonUniformsSetLocals` they read the matrix of the translation by
the light position as `u_LightMatrix`, the matrix of `mvp * translation` as `u_MVP` and the
light radius as `u_Radius`. The sixteen floats written for a transform `t`, read as a
column-major `mat4`, map `(x, y, 0, 1)` to `(t.a*x + t.c*y + t.tx, t.b*x + t.d*y + t.ty, 0, 1)`. -/
theorem uniform_data_matches_blocks (waits : Nat) (width height : Int) (d : DrawState) :
    (std140Offsets 0 PhotonGlobals
      = [("u_P", 0, GlslType.mat4), ("u_MVP", 16, GlslType.mat4),
         ("u_OutlineColor", 32, GlslType.vec4), ("u_OutlineWidth", 36, GlslType.float)] ∧
     std140Offsets 0 PhotonLocals
      = [("u_LightMatrix", 0, GlslType.mat4), ("u_MVP", 16, GlslType.mat4),
         ("u_Radius", 32, GlslType.float)]) ∧
    (RendererCall.PhotonRendererSetGlobals (ChipmunkDebugDrawBegin waits width height d).globals
        ∈ (ChipmunkDebugDrawBegin waits width height d).calls ∧
      readUniform PhotonGlobals (ChipmunkDebugDrawBegin waits width height d).globals "u_P"
        = transformMatrix d.ChipmunkDebugDrawProjection ∧
      readUniform PhotonGlobals (ChipmunkDebugDrawBegin waits width height d).globals "u_MVP"
        = transformMatrix (cpTransformMult d.ChipmunkDebugDrawProjection
            (cpTransformInverse d.ChipmunkDebugDrawCamera)) ∧
      readUniform PhotonGlobals (ChipmunkDebugDrawBegin waits width height d).globals
          "u_OutlineColor"
        = [d.ChipmunkDebugDrawOutlineColor.r, d.ChipmunkDebugDrawOutlineColor.g,
           d.ChipmunkDebugDrawOutlineColor.b, d.ChipmunkDebugDrawOutlineColor.a] ∧
      readUniform PhotonGlobals (ChipmunkDebugDrawBegin waits width height d).globals
          "u_OutlineWidth"
        = [d.ChipmunkDebugDrawScaleFactor]) ∧
    (∃ st : PhotonRenderState,
      (ChipmunkDebugDrawBegin waits width height d).ShadowMaskState = some st ∧
      RendererCall.PhotonUniformsSetLocals st.locals
        ∈ (ChipmunkDebugDrawBegin waits width height d).calls ∧
      readUniform PhotonLocals st.locals "u_LightMatrix"
        = transformMatrix (cpTransformTranslate d.ChipmunkDebugDrawLightPosition) ∧
      readUniform PhotonLocals st.locals "u_MVP"
        = transformMatrix (cpTransformMult
            (cpTransformMult d.ChipmunkDebugDrawProjection
              (cpTransformInverse d.ChipmunkDebugDrawCamera))
            (cpTransformTranslate d.ChipmunkDebugDrawLightPosition)) ∧
      readUniform PhotonLocals st.locals "u_Radius" = [d.ChipmunkDebugDrawLightRadius]) ∧
    (∀ (t : cpTransform) (x y : ℚ),
      mat4MulVec4 (transformMatrix t) ⟨x, y, 0, 1⟩
        = ⟨t.a * x + t.c * y + t.tx, t.b * x + t.d * y + t.ty, 0, 1⟩) := by
  obtain ⟨hg, hs, -, -⟩ := ChipmunkDebugDrawBegin_fields waits width height d
  refine ⟨⟨std140_PhotonGlobals, std140_PhotonLocals⟩, ⟨?_, ?_⟩, ⟨_, hs, ?_, ?_⟩,
    mat4MulVec4_transformMatrix⟩
  · rw [hg]
    simp [ChipmunkDebugDrawBegin, ShadowsBegin]
  · rw [hg]
    exact readUniform_globalsData _ _ _ _
  · simp [ChipmunkDebugDrawBegin, ShadowsBegin]
  · exact readUniform_shadowMaskLocals _ _ _

/-! ## C15: window and context creation -/

/-- C15. `SetupGLFW` ends in an abort, having registered no callback, when `glfwInit` returns
zero or `glfwCreateWindow` returns no window. In every other case it does not abort and returns
the window `glfwCreateWindow` created, with `Reshape`, `Keyboard`, `SpecialKeyboard`, `Mouse`
and `Click` registered on it as the window-size, char, key, cursor-position and mouse-button
callbacks. -/
theorem SetupGLFW_aborts_or_registers (glfwInitResult : Int) (created : Option Nat)
    (width height index : Int) (name : String) (d : DrawState) :
    ((glfwInitResult = 0 ∨ created = none) →
      (SetupGLFW glfwInitResult created width height index name d).2.1 = SetupResult.aborted ∧
      (SetupGLFW glfwInitResult created width height index name d).1.getLast? = some GlfwCall.abort ∧
      ∀ c ∈ (SetupGLFW glfwInitResult created width height index name d).1,
        c.registersCallback = false) ∧
    (∀ window : Nat, glfwInitResult ≠ 0 → created = some window →
      (SetupGLFW glfwInitResult created width height index name d).2.1
        = SetupResult.returned window ∧
      GlfwCall.abort ∉ (SetupGLFW glfwInitResult created width height index name d).1 ∧
      (SetupGLFW glfwInitResult created width height index name d).1.filter
          GlfwCall.registersCallback
        = [GlfwCall.glfwSetWindowSizeCallback window Handler.Reshape,
           GlfwCall.glfwSetCharCallback window Handler.Keyboard,
           GlfwCall.glfwSetKeyCallback window Handler.SpecialKeyboard,
           GlfwCall.glfwSetCursorPosCallback window Handler.Mouse,
           GlfwCall.glfwSetMouseButtonCallback window Handler.Click]) := by
  constructor
  · intro h
    unfold SetupGLFW
    by_cases h0 : glfwInitResult = 0
    · rw [if_pos h0]
      refine ⟨rfl, rfl, ?_⟩
      intro c hc
      simp at hc
      rcases hc with rfl | rfl | rfl <;> rfl
    · rw [if_neg h0]
      rcases h with h | h
      · exact absurd h h0
      · subst h
        refine ⟨rfl, rfl, ?_⟩
        intro c hc
        simp at hc
        rcases hc with rfl | rfl | rfl | rfl | rfl | rfl | rfl | rfl | rfl <;> rfl
  · intro window h0 hc
    subst hc
    unfold SetupGLFW
    rw [if_neg h0]
    refine ⟨rfl, ?_, ?_⟩
    · simp [Reshape]
    · simp [Reshape, GlfwCall.registersCallback]

/-- C15 at three runs: `glfwInit` fails; `glfwCreateWindow` returns `NULL`; both succeed and
the window is number 7. -/
theorem SetupGLFW_aborts_or_registers_witness :
    (((0 : Int) = 0 ∨ (some 7 : Option Nat) = none) ∧
      (SetupGLFW 0 (some 7) 800 600 0 "Example" exampleDrawState).2.1 = SetupResult.aborted) ∧
    (((1 : Int) = 0 ∨ (none : Option Nat) = none) ∧
      (SetupGLFW 1 none 800 600 0 "Example" exampleDrawState).2.1 = SetupResult.aborted) ∧
    (((1 : Int) ≠ 0 ∧ (some 7 : Option Nat) = some 7) ∧
      (SetupGLFW 1 (some 7) 800 600 0 "Example" exampleDrawState).2.1
        = SetupResult.returned 7 ∧
      (SetupGLFW 1 (some 7) 800 600 0 "Example" exampleDrawState).1.filter
          GlfwCall.registersCallback
        = [GlfwCall.glfwSetWindowSizeCallback 7 Handler.Reshape,
           GlfwCall.glfwSetCharCallback 7 Handler.Keyboard,
           GlfwCall.glfwSetKeyCallback 7 Handler.SpecialKeyboard,
           GlfwCall.glfwSetCursorPosCallback 7 Handler.Mouse,
           GlfwCall.glfwSetMouseButtonCallback 7 Handler.Click]) :=
  ⟨⟨Or.inl rfl,
      ((SetupGLFW_aborts_or_registers 0 (some 7) 800 600 0 "Example" exampleDrawState).1
        (Or.inl rfl)).1⟩,
   ⟨Or.inr rfl,
      ((SetupGLFW_aborts_or_registers 1 none 800 600 0 "Example" exampleDrawState).1
        (Or.inr rfl)).1⟩,
   ⟨⟨by decide, rfl⟩,
      ((SetupGLFW_aborts_or_registers 1 (some 7) 800 600 0 "Example" exampleDrawState).2 7
        (by decide) rfl).1,
      ((SetupGLFW_aborts_or_registers 1 (some 7) 800 600 0 "Example" exampleDrawState).2 7
        (by decide) rfl).2.2⟩⟩

/-! ## C16: shadow geometry relative to the light -/

lemma cpTransformInverse_translate (L : cpVect) :
    cpTransformInverse (cpTransformTranslate L) = ⟨1, 0, 0, 1, -L.x, -L.y⟩ := by
  simp [cpTransformInverse, cpTransformTranslate]

/-- The transform `ChipmunkDebugDrawShadow` applies, `inverse(translation by L) * transform`,
maps a vertex to its world position less `L`. -/
lemma light_relative_point (L : cpVect) (transform : cpTransform) (v : cpVect) :
    cpTransformPoint (cpTransformMult (cpTransformInverse (cpTransformTranslate L)) transform) v
      = cpvsub (cpTransformPoint transform v) L := by
  rw [cpTransformInverse_translate]
  simp only [cpTransformPoint, cpTransformMult, cpvsub, cpv, cpVect.mk.injEq]
  constructor <;> ring

lemma light_matrix_restores (L : cpVect) (w : cpVect) :
    glsl_transform (transformMatrix (cpTransformTranslate L))
        ⟨(cpvsub w L).x, (cpvsub w L).y⟩
      = ⟨w.x, w.y⟩ := by
  simp [glsl_transform, mat4MulVec4, transformMatrix, cpTransformTranslate, cpvsub, cpv]

/-- C16. After `ChipmunkDebugDrawBegin`, `LightMatrixInv` is the inverse of the translation by
`ChipmunkDebugDrawLightPosition` and the uniform `u_LightMatrix` is the matrix of that
translation. For every body transform and every vertex `v`, the point
`ChipmunkDebugDrawShadow` computes for `v` is `cpTransformPoint(transform, v)` less the light
position, and the light matrix maps it back to `cpTransformPoint(transform, v)`. The segment
end points stored with the four vertices of quad `i` are these points for
`verts[(i - 1) mod n]` and `verts[i]`. -/
theorem shadow_segments_relative_to_light (waits : Nat) (width height : Int) (d : DrawState)
    (transform : cpTransform) :
    (ChipmunkDebugDrawBegin waits width height d).LightMatrixInv
      = cpTransformInverse (cpTransformTranslate d.ChipmunkDebugDrawLightPosition) ∧
    (∃ st : PhotonRenderState,
      (ChipmunkDebugDrawBegin waits width height d).ShadowMaskState = some st ∧
      readUniform PhotonLocals st.locals "u_LightMatrix"
        = transformMatrix (cpTransformTranslate d.ChipmunkDebugDrawLightPosition) ∧
      ∀ v : cpVect,
        glsl_transform (readUniform PhotonLocals st.locals "u_LightMatrix")
          ⟨(cpTransformPoint (cpTransformMult
              (ChipmunkDebugDrawBegin waits width height d).LightMatrixInv transform) v).x,
           (cpTransformPoint (cpTransformMult
              (ChipmunkDebugDrawBegin waits width height d).LightMatrixInv transform) v).y⟩
        = ⟨(cpTransformPoint transform v).x, (cpTransformPoint transform v).y⟩) ∧
    (∀ v : cpVect,
      cpTransformPoint (cpTransformMult
          (ChipmunkDebugDrawBegin waits width height d).LightMatrixInv transform) v
        = cpvsub (cpTransformPoint transform v) d.ChipmunkDebugDrawLightPosition) ∧
    (∀ (base n : Nat) (verts : List cpVect), 1 ≤ n → verts.length = n →
      (ChipmunkDebugDrawShadow (ChipmunkDebugDrawBegin waits width height d).LightMatrixInv base
          transform (n : Int) verts).vertexWrites.map (fun w => (w.2.uv1, w.2.uv2))
        = (List.range n).flatMap (fun i =>
            List.replicate 4
              ((⟨(cpvsub (cpTransformPoint transform (verts.getD ((i + n - 1) % n) (cpv 0 0)))
                    d.ChipmunkDebugDrawLightPosition).x,
                 (cpvsub (cpTransformPoint transform (verts.getD ((i + n - 1) % n) (cpv 0 0)))
                    d.ChipmunkDebugDrawLightPosition).y⟩ : pvec2),
               (⟨(cpvsub (cpTransformPoint transform (verts.getD i (cpv 0 0)))
                    d.ChipmunkDebugDrawLightPosition).x,
                 (cpvsub (cpTransformPoint transform (verts.getD i (cpv 0 0)))
                    d.ChipmunkDebugDrawLightPosition).y⟩ : pvec2)))) := by
  obtain ⟨-, hs, hl, -⟩ := ChipmunkDebugDrawBegin_fields waits width height d
  rw [hl]
  refine ⟨rfl, ⟨_, hs, (readUniform_shadowMaskLocals _ _ _).1, ?_⟩, ?_, ?_⟩
  · intro v
    rw [(readUniform_shadowMaskLocals _ _ _).1, light_relative_point]
    exact light_matrix_restores _ _
  · intro v
    exact light_relative_point _ _ _
  · intro base n verts hn _
    rw [ChipmunkDebugDrawShadow_eq _ base transform n verts hn]
    simp only [List.map_flatMap]
    apply flatMap_congr_mem
    intro i _
    simp [light_relative_point, List.replicate]

/-- C16 at the example draw state (light at `(-1000, 1000)`), the identity body transform and
the triangle `(0,0)`, `(4,0)`, `(0,3)`: the segment end points are the vertices less the light
position. -/
theorem shadow_segments_relative_to_light_witness :
    (1 ≤ 3 ∧ exampleTriangle.length = 3) ∧
    (ChipmunkDebugDrawShadow (ChipmunkDebugDrawBegin 0 640 480 exampleDrawState).LightMatrixInv
        0 cpTransformIdentity (3 : Nat) exampleTriangle).vertexWrites.map
        (fun w => (w.2.uv1, w.2.uv2))
      = [(⟨1000, -997⟩, ⟨1000, -1000⟩), (⟨1000, -997⟩, ⟨1000, -1000⟩),
         (⟨1000, -997⟩, ⟨1000, -1000⟩), (⟨1000, -997⟩, ⟨1000, -1000⟩),
         (⟨1000, -1000⟩, ⟨1004, -1000⟩), (⟨1000, -1000⟩, ⟨1004, -1000⟩),
         (⟨1000, -1000⟩, ⟨1004, -1000⟩), (⟨1000, -1000⟩, ⟨1004, -1000⟩),
         (⟨1004, -1000⟩, ⟨1000, -997⟩), (⟨1004, -1000⟩, ⟨1000, -997⟩),
         (⟨1004, -1000⟩, ⟨1000, -997⟩), (⟨1004, -1000⟩, ⟨1000, -997⟩)] := by
  have h := (shadow_segments_relative_to_light 0 640 480 exampleDrawState
    cpTransformIdentity).2.2.2 0 3 exampleTriangle (by decide) rfl
  refine ⟨⟨by decide, rfl⟩, ?_⟩
  rw [h]
  norm_num [List.range_succ, List.flatMap, List.replicate, exampleTriangle, exampleDrawState,
    cpTransformPoint, cpTransformIdentity, cpvsub, cpv]

/-! ## C17: the tick loop of `Update` ends -/

/-- The number of passes through the loop of `Update` does not depend on the fuel. -/
lemma Update_deterministic {σ : Type} (demos : Int → ChipmunkDemo σ) (time : ℚ)
    (s s1 s2 : DemoState σ) (fuel1 fuel2 : Nat) (hpos : 0 < (demos s.demo_index).timestep)
    (h1 : Update demos fuel1 time s = some s1) (h2 : Update demos fuel2 time s = some s2) :
    s1 = s2 := by
  obtain ⟨k1, -, e1, le1, all1⟩ := Update_eq demos fuel1 time s s1 h1
  obtain ⟨k2, -, e2, le2, all2⟩ := Update_eq demos fuel2 time s s2 h2
  have a1 : s1.Accumulator = s.Accumulator + UpdateDt time s.LastTime
      - k1 * (demos s.demo_index).timestep := by rw [e1]
  have a2 : s2.Accumulator = s.Accumulator + UpdateDt time s.LastTime
      - k2 * (demos s.demo_index).timestep := by rw [e2]
  have hk : k1 = k2 := by
    rcases Nat.lt_trichotomy k1 k2 with h | h | h
    · have := all2 k1 h
      rw [← a1] at this
      exact absurd le1 (not_le.mpr this)
    · exact h
    · have := all1 k2 h
      rw [← a2] at this
      exact absurd le2 (not_le.mpr this)
  rw [e1, e2, hk]

/-- C17. For a positive timestep of the current demo, whatever `Accumulator` and the wall-clock
delta `time - LastTime` are, `Update` returns (for some amount of fuel, and with the same
result for every amount that suffices). What it returns is the state after some number `k` of
calls `Tick(timestep)`, with `Accumulator` equal to its old value plus `min(delta, 0.2)` less
`k` timesteps, which is at most the timestep; and `k = 0` when the old value plus
`min(delta, 0.2)` is at most the timestep. -/
theorem Update_loop_ends {σ : Type} (demos : Int → ChipmunkDemo σ) (time : ℚ)
    (s : DemoState σ) (hpos : 0 < (demos s.demo_index).timestep) :
    (∃ fuel s', Update demos fuel time s = some s') ∧
    (∀ (fuel1 fuel2 : Nat) (s1 s2 : DemoState σ), Update demos fuel1 time s = some s1 →
      Update demos fuel2 time s = some s2 → s1 = s2) ∧
    (∀ (fuel : Nat) (s' : DemoState σ), Update demos fuel time s = some s' →
      ∃ k : Nat,
        s' = { (Tick demos (demos s.demo_index).timestep)^[k] s with
          Accumulator := s.Accumulator + min (time - s.LastTime) (1 / 5)
            - k * (demos s.demo_index).timestep
          LastTime := time } ∧
        s'.Accumulator = s.Accumulator + min (time - s.LastTime) (1 / 5)
          - k * (demos s.demo_index).timestep ∧
        s'.Accumulator ≤ (demos s.demo_index).timestep ∧
        (s.Accumulator + min (time - s.LastTime) (1 / 5) ≤ (demos s.demo_index).timestep →
          k = 0)) := by
  refine ⟨Update_terminates demos time s hpos, ?_, ?_⟩
  · intro fuel1 fuel2 s1 s2 h1 h2
    exact Update_deterministic demos time s s1 s2 fuel1 fuel2 hpos h1 h2
  · intro fuel s' h
    obtain ⟨k, -, e, hle, hall⟩ := Update_eq demos fuel time s s' h
    rw [UpdateDt_eq_min] at e hall
    refine ⟨k, e, by rw [e], hle, ?_⟩
    intro hsmall
    by_contra hk
    have := hall 0 (Nat.pos_of_ne_zero hk)
    rw [Nat.cast_zero, zero_mul, sub_zero] at this
    exact absurd hsmall (not_le.mpr this)

/-- C17 at the example table after `RunDemo`: with timestep `1/60` and delta `1/20`, `Update`
returns after two ticks with `Accumulator = 1/60`. -/
theorem Update_loop_ends_witness :
    (0 < (exampleDemos exampleStart.demo_index).timestep) ∧
    Update exampleDemos 2 (1 / 20) exampleStart = some exampleAfter ∧
    (∃ fuel s', Update exampleDemos fuel (1 / 20) exampleStart = some s') ∧
    (∃ k : Nat,
      exampleAfter = { (Tick exampleDemos (exampleDemos exampleStart.demo_index).timestep)^[k]
          exampleStart with
        Accumulator := exampleStart.Accumulator + min (1 / 20 - exampleStart.LastTime) (1 / 5)
          - k * (exampleDemos exampleStart.demo_index).timestep
        LastTime := 1 / 20 } ∧
      exampleAfter.Accumulator = exampleStart.Accumulator
          + min (1 / 20 - exampleStart.LastTime) (1 / 5)
          - k * (exampleDemos exampleStart.demo_index).timestep ∧
      exampleAfter.Accumulator ≤ (exampleDemos exampleStart.demo_index).timestep ∧
      (exampleStart.Accumulator + min (1 / 20 - exampleStart.LastTime) (1 / 5)
          ≤ (exampleDemos exampleStart.demo_index).timestep → k = 0)) :=
  ⟨by norm_num [exampleDemos],
   exampleUpdate,
   (Update_loop_ends exampleDemos (1 / 20) exampleStart (by norm_num [exampleDemos])).1,
   (Update_loop_ends exampleDemos (1 / 20) exampleStart (by norm_num [exampleDemos])).2.2 2
     exampleAfter exampleUpdate⟩

/-! ## C18: pause and single step -/

lemma Tick_idle {σ : Type} (demos : Int → ChipmunkDemo σ) (dt : ℚ) (s : DemoState σ)
    (hp : s.paused = true) (hs : s.step = false) : Tick demos dt s = s := by
  unfold Tick
  rw [hp, hs]
  simp

lemma Tick_iterate_idle {σ : Type} (demos : Int → ChipmunkDemo σ) (dt : ℚ) (k : Nat)
    (s : DemoState σ) (hp : s.paused = true) (hs : s.step = false) :
    (Tick demos dt)^[k] s = s := by
  induction k with
  | zero => rfl
  | succ k ih => rw [Function.iterate_succ_apply, Tick_idle demos dt s hp hs, ih]

lemma Tick_step {σ : Type} (demos : Int → ChipmunkDemo σ) (dt : ℚ) (s : DemoState σ)
    (hp : s.paused = true) (hs : s.step = true) :
    (Tick demos dt s).calls = s.calls ++ [Call.updateFunc s.demo_index s.space dt] ∧
    (Tick demos dt s).space = (demos s.demo_index).updateFunc s.space dt ∧
    (Tick demos dt s).ChipmunkDemoTicks = s.ChipmunkDemoTicks + 1 ∧
    (Tick demos dt s).ChipmunkDemoTime = s.ChipmunkDemoTime + dt ∧
    (Tick demos dt s).step = false ∧
    (Tick demos dt s).paused = true := by
  unfold Tick
  rw [hp, hs]
  simp [hp]

lemma Tick_iterate_step {σ : Type} (demos : Int → ChipmunkDemo σ) (dt : ℚ) (k : Nat)
    (s : DemoState σ) (hp : s.paused = true) (hs : s.step = true) :
    (Tick demos dt)^[k + 1] s = Tick demos dt s := by
  obtain ⟨-, -, -, -, h1, h2⟩ := Tick_step demos dt s hp hs
  rw [Function.iterate_succ_apply, Tick_iterate_idle demos dt k _ h2 h1]

/-- C18. While the demo is paused and no step is pending, a `Tick` changes nothing at all:
`ChipmunkDemoTicks`, `ChipmunkDemoTime`, the mouse body, the print buffer and its cursor,
`ChipmunkDemoRightDown` and the list of calls made (so `updateFunc` is not called) are as
before. While it is paused and a step is pending, a `Tick` calls `updateFunc` exactly once, on
the current space, counts one tick, and clears the step flag while the demo stays paused.
Hence an `Update` made while paused, however many times its loop runs, either makes no call
and counts no tick, or (a step was pending) makes the single call `updateFunc(space, timestep)`
and counts one tick. -/
theorem pause_and_single_step {σ : Type} (demos : Int → ChipmunkDemo σ) :
    (∀ (dt : ℚ) (s : DemoState σ), s.paused = true → s.step = false →
      Tick demos dt s = s ∧
      (Tick demos dt s).ChipmunkDemoTicks = s.ChipmunkDemoTicks ∧
      (Tick demos dt s).ChipmunkDemoTime = s.ChipmunkDemoTime ∧
      (Tick demos dt s).mouse_body = s.mouse_body ∧
      (Tick demos dt s).PrintStringBuffer = s.PrintStringBuffer ∧
      (Tick demos dt s).PrintStringCursor = s.PrintStringCursor ∧
      (Tick demos dt s).ChipmunkDemoRightDown = s.ChipmunkDemoRightDown ∧
      (Tick demos dt s).calls = s.calls) ∧
    (∀ (dt : ℚ) (s : DemoState σ), s.paused = true → s.step = true →
      (Tick demos dt s).calls = s.calls ++ [Call.updateFunc s.demo_index s.space dt] ∧
      (Tick demos dt s).space = (demos s.demo_index).updateFunc s.space dt ∧
      (Tick demos dt s).ChipmunkDemoTicks = s.ChipmunkDemoTicks + 1 ∧
      (Tick demos dt s).ChipmunkDemoTime = s.ChipmunkDemoTime + dt ∧
      (Tick demos dt s).step = false ∧
      (Tick demos dt s).paused = true) ∧
    (∀ (fuel : Nat) (time : ℚ) (s s' : DemoState σ), s.paused = true →
      Update demos fuel time s = some s' →
      (s'.calls = s.calls ∧ s'.ChipmunkDemoTicks = s.ChipmunkDemoTicks ∧
        s'.step = s.step) ∨
      (s.step = true ∧
        s'.calls = s.calls
          ++ [Call.updateFunc s.demo_index s.space (demos s.demo_index).timestep] ∧
        s'.ChipmunkDemoTicks = s.ChipmunkDemoTicks + 1 ∧
        s'.step = false)) := by
  refine ⟨?_, ?_, ?_⟩
  · intro dt s hp hs
    have h := Tick_idle demos dt s hp hs
    rw [h]
    exact ⟨rfl, rfl, rfl, rfl, rfl, rfl, rfl, rfl⟩
  · intro dt s hp hs
    exact Tick_step demos dt s hp hs
  · intro fuel time s s' hp h
    obtain ⟨k, -, e, -, -⟩ := Update_eq demos fuel time s s' h
    cases hstep : s.step with
    | false =>
      left
      rw [e, Tick_iterate_idle demos _ k s hp hstep]
      exact ⟨rfl, rfl, hstep⟩
    | true =>
      cases k with
      | zero =>
        left
        rw [e]
        exact ⟨rfl, rfl, hstep⟩
      | succ k =>
        right
        obtain ⟨h1, -, h3, -, h5, -⟩ := Tick_step demos (demos s.demo_index).timestep s hp hstep
        rw [e, Tick_iterate_step demos _ k s hp hstep]
        exact ⟨rfl, h1, h3, h5⟩

lemma examplePausedUpdate :
    Update exampleDemos 2 (1 / 20) examplePaused = some examplePausedAfter := by
  norm_num [Update, UpdateLoop, UpdateDt, examplePaused, examplePausedAfter, exampleStart,
    RunDemo, exampleDemos, Tick, initialState]

/-- C18 at the example table, paused with a step pending: `Update` at time `1/20` runs its loop
twice and makes one `updateFunc` call; in the state it leaves (paused, no step pending) a
`Tick` changes nothing. -/
theorem pause_and_single_step_witness :
    (examplePaused.paused = true ∧ examplePaused.step = true ∧
      Update exampleDemos 2 (1 / 20) examplePaused = some examplePausedAfter) ∧
    ((examplePausedAfter.calls = examplePaused.calls ∧
        examplePausedAfter.ChipmunkDemoTicks = examplePaused.ChipmunkDemoTicks ∧
        examplePausedAfter.step = examplePaused.step) ∨
      (examplePaused.step = true ∧
        examplePausedAfter.calls = examplePaused.calls
          ++ [Call.updateFunc examplePaused.demo_index examplePaused.space
                (exampleDemos examplePaused.demo_index).timestep] ∧
        examplePausedAfter.ChipmunkDemoTicks = examplePaused.ChipmunkDemoTicks + 1 ∧
        examplePausedAfter.step = false)) ∧
    examplePausedAfter.ChipmunkDemoTicks = 1 ∧
    ((Tick exampleDemos (1 / 60) examplePaused).paused = true ∧
      (Tick exampleDemos (1 / 60) examplePaused).step = false) ∧
    Tick exampleDemos (1 / 60) (Tick exampleDemos (1 / 60) examplePaused)
      = Tick exampleDemos (1 / 60) examplePaused :=
  ⟨⟨rfl, rfl, examplePausedUpdate⟩,
   (pause_and_single_step exampleDemos).2.2 2 (1 / 20) examplePaused examplePausedAfter rfl
     examplePausedUpdate,
   by norm_num [examplePausedAfter, examplePaused, exampleStart, RunDemo, Tick, initialState],
   ⟨((pause_and_single_step exampleDemos).2.1 (1 / 60) examplePaused rfl rfl).2.2.2.2.2,
    ((pause_and_single_step exampleDemos).2.1 (1 / 60) examplePaused rfl rfl).2.2.2.2.1⟩,
   ((pause_and_single_step exampleDemos).1 (1 / 60) (Tick exampleDemos (1 / 60) examplePaused)
     ((pause_and_single_step exampleDemos).2.1 (1 / 60) examplePaused rfl rfl).2.2.2.2.2
     ((pause_and_single_step exampleDemos).2.1 (1 / 60) examplePaused rfl rfl).2.2.2.2.1).1⟩

end Chipmunk2D
